import Mathlib

/-!
Shallow embedding of the S1 perception/control core of the smart_drone_ai
repository (src/ai_core/s1_perception_control/perception_module.py and
control_module.py, plus the dataclasses of ai_core/interface/sim_interface.py),
together with theorems settling the frozen claims about it.

Python floats are modelled as real numbers; Python's `float('inf')` values
(time-to-collision, target distance) are modelled as `none` of `Option ℝ`,
with explicit comparison functions mirroring IEEE comparisons against
infinity.  Stateful methods become explicit state-passing functions.
-/

noncomputable section

namespace SmartDrone

/-- A 3-component vector, modelling the numpy length-3 arrays / tuples used
throughout the Python code. -/
structure Vec3 where
  x : ℝ
  y : ℝ
  z : ℝ

/-- Componentwise addition (numpy `+` on 3-arrays). -/
def Vec3.add (a b : Vec3) : Vec3 := ⟨a.x + b.x, a.y + b.y, a.z + b.z⟩

/-- Componentwise subtraction (numpy `-` on 3-arrays). -/
def Vec3.sub (a b : Vec3) : Vec3 := ⟨a.x - b.x, a.y - b.y, a.z - b.z⟩

/-- Scalar multiplication (numpy scalar `*` array). -/
def Vec3.smul (c : ℝ) (v : Vec3) : Vec3 := ⟨c * v.x, c * v.y, c * v.z⟩

/-- Componentwise (Hadamard) product (numpy array `*` array). -/
def Vec3.hmul (a b : Vec3) : Vec3 := ⟨a.x * b.x, a.y * b.y, a.z * b.z⟩

/-- Dot product (`np.dot`). -/
def Vec3.dot (a b : Vec3) : ℝ := a.x * b.x + a.y * b.y + a.z * b.z

/-- Euclidean norm (`np.linalg.norm`). -/
def Vec3.norm (v : Vec3) : ℝ := Real.sqrt (v.dot v)

/-- The zero vector (`np.zeros(3)`). -/
def Vec3.zero : Vec3 := ⟨0, 0, 0⟩

/-- Largest of the three components (Python `max` over a length-3 list). -/
def Vec3.maxComp (v : Vec3) : ℝ := max v.x (max v.y v.z)

/-- numpy `np.clip(x, lo, hi)`. -/
def clip (x lo hi : ℝ) : ℝ := min (max x lo) hi

/-- Python's `np.arctan2(y, x)`. -/
def atan2 (y x : ℝ) : ℝ :=
  if 0 < x then Real.arctan (y / x)
  else if x < 0 then
    (if 0 ≤ y then Real.arctan (y / x) + Real.pi else Real.arctan (y / x) - Real.pi)
  else if 0 < y then Real.pi / 2
  else if y < 0 then -(Real.pi / 2)
  else 0

/-! ## SimpleKalmanFilter (perception_module.py) -/

/-- State of `SimpleKalmanFilter`: noise constants, the running estimate
(`none` before the first call, mirroring Python's `None`), and the running
error scalar. -/
structure SimpleKalmanFilter where
  process_noise : ℝ
  measurement_noise : ℝ
  estimate : Option Vec3
  estimate_error : ℝ

/-- `SimpleKalmanFilter.__init__` with the default noise constants. -/
def SimpleKalmanFilter.init : SimpleKalmanFilter :=
  { process_noise := 0.1, measurement_noise := 0.5, estimate := none, estimate_error := 1.0 }

/-- `SimpleKalmanFilter.update`: returns the smoothed measurement and the
updated filter state. -/
def SimpleKalmanFilter.update (f : SimpleKalmanFilter) (measurement : Vec3) :
    Vec3 × SimpleKalmanFilter :=
  match f.estimate with
  | none => (measurement, { f with estimate := some measurement })
  | some est =>
    let predicted_estimate := est
    let predicted_error := f.estimate_error + f.process_noise
    let kalman_gain := predicted_error / (predicted_error + f.measurement_noise)
    let new_estimate :=
      predicted_estimate.add (Vec3.smul kalman_gain (measurement.sub predicted_estimate))
    (new_estimate,
     { f with estimate := some new_estimate,
              estimate_error := (1 - kalman_gain) * predicted_error })

/-- Modelled from the spec (for comparison with the code, claim C5): the
spec's stated gain formula `gain = prior_error / (prior_error +
measurement_noise)`, where `prior_error` is the error carried from the
previous call. -/
def specKalmanGain (prior_error measurement_noise : ℝ) : ℝ :=
  prior_error / (prior_error + measurement_noise)

/-! ## Data model of sim_interface.py -/

/-- `DroneState` dataclass. -/
structure DroneState where
  position : Vec3
  velocity : Vec3
  orientation : Vec3
  battery_level : ℝ
  is_armed : Bool

/-- `TargetState` dataclass. -/
structure TargetState where
  position : Vec3
  velocity : Vec3
  is_visible : Bool

/-- An obstacle dictionary.  The Python code reads the keys `position`,
`size` and `velocity` through `.get` with defaults, so each field is an
`Option` and the defaults are applied by the accessors below. -/
structure Obstacle where
  position : Option Vec3
  size : Option Vec3
  velocity : Option Vec3

/-- `obstacle.get("position", [0, 0, 0])`. -/
def Obstacle.posD (o : Obstacle) : Vec3 := o.position.getD ⟨0, 0, 0⟩

/-- `obstacle.get("size", [1, 1, 1])`. -/
def Obstacle.sizeD (o : Obstacle) : Vec3 := o.size.getD ⟨1, 1, 1⟩

/-- `obstacle.get("velocity", [0, 0, 0])`. -/
def Obstacle.velD (o : Obstacle) : Vec3 := o.velocity.getD ⟨0, 0, 0⟩

/-- `SimulationState` dataclass. -/
structure SimulationState where
  drone : DroneState
  target : TargetState
  obstacles : List Obstacle
  timestamp : ℝ

/-! ## Perception module (perception_module.py) -/

/-- Threat urgency tier. -/
inductive Urgency where
  | critical
  | warning
deriving DecidableEq

/-- Comparison of an optional time-to-collision (`none` = `float('inf')`)
against a finite bound, mirroring Python's `t < bound` where `inf < bound`
is false. -/
def ttcLtBound (t : Option ℝ) (bound : ℝ) : Bool :=
  match t with
  | none => false
  | some v => decide (v < bound)

/-- The `≤` used to sort threats by `time_to_collision` (`none` =
`float('inf')` sorts last, as in Python). -/
def ttcLE (a b : Option ℝ) : Bool :=
  match a, b with
  | some v, some w => decide (v ≤ w)
  | some _, none => true
  | none, some _ => false
  | none, none => true

/-- A threat record, as assembled by `_analyze_collision_risk`. -/
structure Threat where
  obstacle : Obstacle
  is_threat : Bool
  closest_distance : ℝ
  time_to_collision : Option ℝ
  urgency : Urgency
  avoidance_vector : Vec3

/-- Flight envelope dictionary built by `_calculate_flight_envelope`. -/
structure FlightEnvelope where
  max_speed : ℝ
  max_acceleration : ℝ
  max_climb_rate : ℝ
  max_descent_rate : ℝ
  max_bank_angle : ℝ
  battery_limit_factor : ℝ
  altitude_limits : ℝ × ℝ
  emergency_reserves : Bool

/-- `PerceptionState` dataclass.  `target_distance` is `none` when the
Python code stores `float('inf')` (no visible target). -/
structure PerceptionState where
  timestamp : ℝ
  drone_position : Vec3
  drone_velocity : Vec3
  drone_orientation : Vec3
  target_position : Option Vec3
  target_velocity : Option Vec3
  target_visible : Bool
  target_distance : Option ℝ
  target_bearing : ℝ × ℝ
  obstacles : List Obstacle
  immediate_threats : List Threat
  safe_directions : List (ℝ × ℝ)
  battery_level : ℝ
  flight_envelope : FlightEnvelope

/-- Mutable state of `PerceptionModule`. -/
structure PerceptionModule where
  update_rate : ℝ
  update_interval : ℝ
  last_update : ℝ
  position_history : List (ℝ × Vec3)
  target_history : List (ℝ × Vec3)
  velocity_history : List (ℝ × Vec3)
  position_filter : SimpleKalmanFilter
  target_filter : SimpleKalmanFilter
  collision_lookahead_time : ℝ
  min_safe_distance : ℝ
  critical_distance : ℝ

/-- `PerceptionModule.__init__` with the default 200 Hz rate. -/
def PerceptionModule.init : PerceptionModule :=
  { update_rate := 200, update_interval := 1 / 200, last_update := 0,
    position_history := [], target_history := [], velocity_history := [],
    position_filter := SimpleKalmanFilter.init, target_filter := SimpleKalmanFilter.init,
    collision_lookahead_time := 2.0, min_safe_distance := 3.0, critical_distance := 1.5 }

/-- `PerceptionModule._calculate_target_info`. -/
def calculateTargetInfo (drone_pos : Vec3) (target_pos : Option Vec3) :
    Option ℝ × (ℝ × ℝ) :=
  match target_pos with
  | none => (none, (0, 0))
  | some t =>
    let dx := t.x - drone_pos.x
    let dy := t.y - drone_pos.y
    let dz := t.z - drone_pos.z
    let distance := Real.sqrt (dx ^ 2 + dy ^ 2 + dz ^ 2)
    let horizontal_distance := Real.sqrt (dx ^ 2 + dz ^ 2)
    (some distance, (atan2 dz dx, atan2 dy horizontal_distance))

/-- `PerceptionModule._calculate_avoidance_vector`. -/
def calculateAvoidanceVector (pm : PerceptionModule) (rel_pos : Vec3) (obs_size : Vec3) :
    Vec3 :=
  if rel_pos.norm < 0.001 then ⟨0, 1, 0⟩
  else
    let avoidance_dir := Vec3.smul (-(1 / rel_pos.norm)) rel_pos
    let safety_margin := obs_size.maxComp + pm.min_safe_distance
    Vec3.smul safety_margin avoidance_dir

/-- `PerceptionModule._analyze_collision_risk`. -/
def analyzeCollisionRisk (pm : PerceptionModule) (drone_pos drone_vel : Vec3)
    (obstacle : Obstacle) : Threat :=
  let obs_pos := obstacle.posD
  let obs_size := obstacle.sizeD
  let obs_vel := obstacle.velD
  let rel_pos := obs_pos.sub drone_pos
  let rel_vel := obs_vel.sub drone_vel
  let cdttc : ℝ × Option ℝ :=
    if rel_vel.norm < 0.001 then (rel_pos.norm, none)
    else
      let t_closest := max 0 (-(rel_pos.dot rel_vel) / rel_vel.dot rel_vel)
      let closest_pos := rel_pos.add (Vec3.smul t_closest rel_vel)
      let cd := closest_pos.norm
      (cd, if cd < obs_size.maxComp then some t_closest else none)
  let closest_distance := cdttc.1
  let time_to_collision := cdttc.2
  let safe_distance := obs_size.maxComp + pm.min_safe_distance
  { obstacle := obstacle,
    is_threat := decide (closest_distance < safe_distance) &&
      ttcLtBound time_to_collision pm.collision_lookahead_time,
    closest_distance := closest_distance,
    time_to_collision := time_to_collision,
    urgency := if closest_distance < pm.critical_distance then .critical else .warning,
    avoidance_vector := calculateAvoidanceVector pm rel_pos obs_size }

/-- `PerceptionModule._detect_immediate_threats`: analyze every obstacle,
keep the threatening ones in order, then stable-sort ascending by
time-to-collision (Python `list.sort` with a key is a stable ascending
sort). -/
def detectImmediateThreats (pm : PerceptionModule) (drone_pos drone_vel : Vec3)
    (obstacles : List Obstacle) : List Threat :=
  let threats :=
    (obstacles.map (analyzeCollisionRisk pm drone_pos drone_vel)).filter (·.is_threat)
  threats.mergeSort (fun a b => ttcLE a.time_to_collision b.time_to_collision)

/-- `np.linspace a b n` (with endpoint, as numpy defaults). -/
def linspace (a b : ℝ) (n : ℕ) : List ℝ :=
  (List.range n).map (fun i => a + (b - a) * i / (n - 1))

/-- `PerceptionModule._is_direction_safe`.  The `threats` argument is
accepted but unused, exactly as in the source. -/
def isDirectionSafe (pm : PerceptionModule) (drone_pos : Vec3) (direction : ℝ × ℝ)
    (obstacles : List Obstacle) (_threats : List Threat) : Bool :=
  let azimuth := direction.1
  let elevation := direction.2
  let dir_vector : Vec3 :=
    ⟨Real.cos elevation * Real.cos azimuth, Real.sin elevation,
     Real.cos elevation * Real.sin azimuth⟩
  let check_distance : ℝ := 10.0
  let check_pos := drone_pos.add (Vec3.smul check_distance dir_vector)
  obstacles.all (fun o =>
    !(decide ((check_pos.sub o.posD).norm < o.sizeD.maxComp + pm.min_safe_distance)))

/-- `PerceptionModule._calculate_safe_directions`: 16 azimuths, 5
elevations, keep the safe pairs (outer loop azimuth, inner loop
elevation). -/
def calculateSafeDirections (pm : PerceptionModule) (drone_pos : Vec3)
    (obstacles : List Obstacle) (threats : List Threat) : List (ℝ × ℝ) :=
  (linspace 0 (2 * Real.pi) 16).flatMap (fun azimuth =>
    ((linspace (-(Real.pi / 4)) (Real.pi / 4) 5).filter (fun elevation =>
      isDirectionSafe pm drone_pos (azimuth, elevation) obstacles threats)).map
      (fun elevation => (azimuth, elevation)))

/-- `PerceptionModule._calculate_flight_envelope`. -/
def calculateFlightEnvelope (drone_state : DroneState) (_obstacles : List Obstacle) :
    FlightEnvelope :=
  { max_speed := 15.0, max_acceleration := 8.0, max_climb_rate := 5.0,
    max_descent_rate := 3.0, max_bank_angle := 45.0,
    battery_limit_factor := drone_state.battery_level / 100.0,
    altitude_limits := (1.0, 100.0),
    emergency_reserves := decide (drone_state.battery_level > 20.0) }

/-- `PerceptionModule._update_history`: append each sample, then drop the
oldest entry when a buffer exceeds 50 entries. -/
def updateHistory (pm : PerceptionModule) (timestamp : ℝ) (sim : SimulationState) :
    PerceptionModule :=
  let maxHistorySize : ℕ := 50
  let ph := pm.position_history ++ [(timestamp, sim.drone.position)]
  let ph := if ph.length > maxHistorySize then ph.tail else ph
  let th :=
    if sim.target.is_visible then
      let th := pm.target_history ++ [(timestamp, sim.target.position)]
      if th.length > maxHistorySize then th.tail else th
    else pm.target_history
  let vh := pm.velocity_history ++ [(timestamp, sim.drone.velocity)]
  let vh := if vh.length > maxHistorySize then vh.tail else vh
  { pm with position_history := ph, target_history := th, velocity_history := vh }

/-- `PerceptionModule.process_state`, with `time.time()` passed in as
`now`.  Returns the perception state and the updated module. -/
def processState (pm : PerceptionModule) (sim : SimulationState) (now : ℝ) :
    PerceptionState × PerceptionModule :=
  let pf := pm.position_filter.update sim.drone.position
  let filtered_position := pf.1
  let tf : Option Vec3 × SimpleKalmanFilter :=
    if sim.target.is_visible then
      let r := pm.target_filter.update sim.target.position
      (some r.1, r.2)
    else (none, pm.target_filter)
  let filtered_target_pos := tf.1
  let pm := { pm with position_filter := pf.2, target_filter := tf.2 }
  let ti := calculateTargetInfo filtered_position filtered_target_pos
  let immediate_threats :=
    detectImmediateThreats pm filtered_position sim.drone.velocity sim.obstacles
  let safe_directions :=
    calculateSafeDirections pm filtered_position sim.obstacles immediate_threats
  let flight_envelope := calculateFlightEnvelope sim.drone sim.obstacles
  let pm := updateHistory pm now sim
  ({ timestamp := now,
     drone_position := filtered_position,
     drone_velocity := sim.drone.velocity,
     drone_orientation := sim.drone.orientation,
     target_position := filtered_target_pos,
     target_velocity := if sim.target.is_visible then some sim.target.velocity else none,
     target_visible := sim.target.is_visible,
     target_distance := ti.1,
     target_bearing := ti.2,
     obstacles := sim.obstacles,
     immediate_threats := immediate_threats,
     safe_directions := safe_directions,
     battery_level := sim.drone.battery_level,
     flight_envelope := flight_envelope }, pm)

/-- A run of the perception loop: fold `process_state` over a list of
(snapshot, wall-clock time) inputs. -/
def runPerception : PerceptionModule → List (SimulationState × ℝ) → PerceptionModule
  | pm, [] => pm
  | pm, input :: rest => runPerception (processState pm input.1 input.2).2 rest

/-! ## Control module (control_module.py) -/

/-- `ControlMode` enum. -/
inductive ControlMode where
  | manual
  | waypoint
  | intercept
  | avoid
  | emergency
  | hover
deriving DecidableEq

/-- `ControlCommand` dataclass.  The free-form `parameters: Dict[str, Any]`
map is never read by the control module and is untypeable here, so it is
omitted. -/
structure ControlCommand where
  command_id : String
  timestamp : ℝ
  mode : ControlMode
  target_position : Option Vec3
  target_velocity : Option Vec3
  duration_ms : ℤ
  urgency : String

/-- `DroneCommand` dataclass; `mode_flags` is the literal flag dictionary. -/
structure DroneCommand where
  timestamp : ℝ
  thrust : ℝ
  pitch : ℝ
  roll : ℝ
  yaw : ℝ
  mode_flags : List (String × Bool)

/-- `PIDController3D` state. -/
structure PIDController3D where
  kp : Vec3
  ki : Vec3
  kd : Vec3
  prev_error : Vec3
  integral : Vec3
  last_time : ℝ

/-- `PIDController3D.__init__` (with `time.time()` passed as `now`). -/
def PIDController3D.make (kp ki kd : Vec3) (now : ℝ) : PIDController3D :=
  { kp := kp, ki := ki, kd := kd, prev_error := Vec3.zero, integral := Vec3.zero,
    last_time := now }

/-- `PIDController3D.update`: returns the control effort and the updated
controller state. -/
def PIDController3D.update (c : PIDController3D) (error : Vec3) (dt : ℝ) :
    Vec3 × PIDController3D :=
  let p_term := c.kp.hmul error
  let integral := c.integral.add (Vec3.smul dt error)
  let i_term := c.ki.hmul integral
  let derivative := Vec3.smul (1 / max dt 0.001) (error.sub c.prev_error)
  let d_term := c.kd.hmul derivative
  (p_term.add (i_term.add d_term), { c with integral := integral, prev_error := error })

/-- `PIDController3D.reset`. -/
def PIDController3D.reset (c : PIDController3D) : PIDController3D :=
  { c with prev_error := Vec3.zero, integral := Vec3.zero }

/-- The reasons passed to `_trigger_emergency`.  The Python code stores a
formatted string; here each reason is a tag carrying the same data. -/
inductive EmergencyReason where
  | lowBattery
  | collisionThreat (time_to_collision : Option ℝ)
  | belowMinAltitude
  | aboveMaxAltitude

/-- One entry of `control_history`, as built by `_log_control_action`. -/
structure LogEntry where
  timestamp : ℝ
  mode : ControlMode
  emergency : Bool
  thrust : ℝ
  pitch : ℝ
  roll : ℝ
  yaw : ℝ
  position : Vec3
  target_distance : Option ℝ
  battery : ℝ
  threats : ℕ

/-- Mutable state of `ControlModule`.  `hover_target` models the attribute
created dynamically by `_execute_hover_control` (`none` until the first
`hasattr` check fails and sets it). -/
structure ControlModule where
  update_rate : ℝ
  update_interval : ℝ
  current_command : Option ControlCommand
  current_mode : ControlMode
  command_start_time : ℝ
  position_controller : PIDController3D
  orientation_controller : PIDController3D
  max_tilt_angle : ℝ
  max_thrust : ℝ
  min_altitude : ℝ
  max_altitude : ℝ
  emergency_mode : Bool
  emergency_reason : Option EmergencyReason
  hover_target : Option Vec3
  control_history : List LogEntry

/-- `ControlModule.__init__` with the default 200 Hz rate (with
`time.time()` passed as `now` for the PID timestamps). -/
def ControlModule.init (now : ℝ) : ControlModule :=
  { update_rate := 200, update_interval := 1 / 200,
    current_command := none, current_mode := .hover, command_start_time := 0,
    position_controller :=
      PIDController3D.make ⟨2.0, 2.0, 2.0⟩ ⟨0.1, 0.1, 0.1⟩ ⟨0.5, 0.5, 0.5⟩ now,
    orientation_controller :=
      PIDController3D.make ⟨3.0, 3.0, 1.5⟩ ⟨0.1, 0.1, 0.05⟩ ⟨0.8, 0.8, 0.3⟩ now,
    max_tilt_angle := 45.0, max_thrust := 0.8, min_altitude := 1.0, max_altitude := 100.0,
    emergency_mode := false, emergency_reason := none, hover_target := none,
    control_history := [] }

/-- `ControlModule._trigger_emergency`. -/
def triggerEmergency (m : ControlModule) (reason : EmergencyReason) : ControlModule :=
  if m.emergency_mode then m
  else { m with emergency_mode := true, emergency_reason := some reason }

/-- `ControlModule._check_emergency_conditions`: battery, then the first
critical threat, then altitude; when nothing triggers, clear any latched
emergency. -/
def checkEmergencyConditions (m : ControlModule) (p : PerceptionState) : ControlModule :=
  if p.battery_level < 15.0 then triggerEmergency m .lowBattery
  else
    match p.immediate_threats.find? (fun t => decide (t.urgency = Urgency.critical)) with
    | some t => triggerEmergency m (.collisionThreat t.time_to_collision)
    | none =>
      if p.drone_position.y < m.min_altitude then triggerEmergency m .belowMinAltitude
      else if p.drone_position.y > m.max_altitude then triggerEmergency m .aboveMaxAltitude
      else if m.emergency_mode then
        { m with emergency_mode := false, emergency_reason := none }
      else m

/-- `ControlModule._execute_emergency_control`. -/
def executeEmergencyControl (m : ControlModule) (p : PerceptionState) (now : ℝ) :
    DroneCommand × ControlModule :=
  let current_pos := p.drone_position
  let target_pos : Vec3 := ⟨current_pos.x, max 0.5 (current_pos.y - 1.0), current_pos.z⟩
  let position_error := target_pos.sub current_pos
  let r := m.position_controller.update position_error m.update_interval
  let control_output := r.1
  ({ timestamp := now,
     thrust := max 0.3 (min 0.6 (0.5 + control_output.y)),
     pitch := clip (control_output.x * 0.1) (-0.3) 0.3,
     roll := clip (control_output.z * 0.1) (-0.3) 0.3,
     yaw := 0.0,
     mode_flags := [("emergency", true), ("landing", true)] },
   { m with position_controller := r.2 })

/-- `ControlModule._execute_hover_control`: freezes `hover_target` the
first time it runs, then drives the error toward that target. -/
def executeHoverControl (m : ControlModule) (p : PerceptionState) (now : ℝ) :
    DroneCommand × ControlModule :=
  let current_pos := p.drone_position
  let tm : Vec3 × ControlModule :=
    match m.hover_target with
    | none => (current_pos, { m with hover_target := some current_pos })
    | some t => (t, m)
  let hover_target := tm.1
  let m := tm.2
  let position_error := hover_target.sub current_pos
  let r := m.position_controller.update position_error m.update_interval
  let control_output := r.1
  ({ timestamp := now,
     thrust := clip (0.5 + control_output.y) 0.0 1.0,
     pitch := clip control_output.x (-0.5) 0.5,
     roll := clip control_output.z (-0.5) 0.5,
     yaw := 0.0,
     mode_flags := [("hover", true)] },
   { m with position_controller := r.2 })

/-- `ControlModule._execute_waypoint_control`; falls back to hover when the
command has no target position. -/
def executeWaypointControl (m : ControlModule) (command : ControlCommand)
    (p : PerceptionState) (now : ℝ) : DroneCommand × ControlModule :=
  match command.target_position with
  | none => executeHoverControl m p now
  | some target_pos =>
    let current_pos := p.drone_position
    let position_error := target_pos.sub current_pos
    let distance := position_error.norm
    let speed_factor := min 1.0 (distance / 5.0)
    let r := m.position_controller.update position_error m.update_interval
    let control_output := Vec3.smul speed_factor r.1
    ({ timestamp := now,
       thrust := clip (0.5 + control_output.y) 0.0 1.0,
       pitch := clip control_output.x (-0.7) 0.7,
       roll := clip control_output.z (-0.7) 0.7,
       yaw := 0.0,
       mode_flags := [("waypoint", true)] },
     { m with position_controller := r.2 })

/-- `ControlModule._calculate_intercept_time`. -/
def calculateInterceptTime (drone_pos target_pos target_vel : Vec3) : ℝ :=
  let relative_pos := target_pos.sub drone_pos
  let drone_speed : ℝ := 10.0
  let a := target_vel.dot target_vel - drone_speed ^ 2
  let b := 2 * relative_pos.dot target_vel
  let c := relative_pos.dot relative_pos
  let discriminant := b ^ 2 - 4 * a * c
  if discriminant < 0 ∨ |a| < 0.001 then relative_pos.norm / drone_speed
  else
    let t1 := (-b + Real.sqrt discriminant) / (2 * a)
    let t2 := (-b - Real.sqrt discriminant) / (2 * a)
    let intercept_time := if 0 < t1 then t1 else t2
    max 0.1 intercept_time

/-- `ControlModule._execute_intercept_control`; falls back to hover when
perception has no target. -/
def executeInterceptControl (m : ControlModule) (_command : ControlCommand)
    (p : PerceptionState) (now : ℝ) : DroneCommand × ControlModule :=
  match p.target_position with
  | none => executeHoverControl m p now
  | some target_pos =>
    let current_pos := p.drone_position
    let predicted_target_pos :=
      match p.target_velocity with
      | some target_vel =>
        target_pos.add
          (Vec3.smul (calculateInterceptTime current_pos target_pos target_vel) target_vel)
      | none => target_pos
    let intercept_vector := predicted_target_pos.sub current_pos
    let distance := intercept_vector.norm
    let pursuit_factor := min 2.0 (distance / 10.0)
    let r := m.position_controller.update intercept_vector m.update_interval
    let control_output := Vec3.smul pursuit_factor r.1
    ({ timestamp := now,
       thrust := clip (0.5 + control_output.y) 0.0 m.max_thrust,
       pitch := clip control_output.x (-0.8) 0.8,
       roll := clip control_output.z (-0.8) 0.8,
       yaw := 0.0,
       mode_flags := [("intercept", true), ("aggressive", true)] },
     { m with position_controller := r.2 })

/-- The angular distance used by `_choose_best_safe_direction` (azimuth
difference wrapped around 2π). -/
def angularDistance (direction desired : ℝ × ℝ) : ℝ :=
  let azimuth_diff := |direction.1 - desired.1|
  let azimuth_diff := min azimuth_diff (2 * Real.pi - azimuth_diff)
  let elevation_diff := |direction.2 - desired.2|
  Real.sqrt (azimuth_diff ^ 2 + elevation_diff ^ 2)

/-- `ControlModule._choose_best_safe_direction`: scan for the direction of
minimum angular distance, first-seen winning ties (`best_distance` starts
at `float('inf')`, modelled as `none`). -/
def chooseBestSafeDirection (desired_vector : Vec3) (safe_directions : List (ℝ × ℝ)) :
    ℝ × ℝ :=
  match safe_directions with
  | [] => (0.0, 0.0)
  | d0 :: _ =>
    let desired_azimuth := atan2 desired_vector.z desired_vector.x
    let desired_elevation :=
      atan2 desired_vector.y (Real.sqrt (desired_vector.x ^ 2 + desired_vector.z ^ 2))
    (safe_directions.foldl
      (fun (best : (ℝ × ℝ) × Option ℝ) direction =>
        let ad := angularDistance direction (desired_azimuth, desired_elevation)
        match best.2 with
        | none => (direction, some ad)
        | some bd => if ad < bd then (direction, some ad) else best)
      (d0, none)).1

/-- The threat weight `1.0 / max(0.1, time_to_collision)` used by the
avoidance law; `1/inf = 0` in Python, so `none` maps to `0`. -/
def threatWeight (t : Option ℝ) : ℝ :=
  match t with
  | none => 0
  | some v => 1 / max 0.1 v

/-- `ControlModule._execute_avoidance_control`. -/
def executeAvoidanceControl (m : ControlModule) (_command : ControlCommand)
    (p : PerceptionState) (now : ℝ) : DroneCommand × ControlModule :=
  let current_pos := p.drone_position
  let acc :=
    p.immediate_threats.foldl
      (fun (acc : Vec3 × ℝ) threat =>
        let threat_weight := threatWeight threat.time_to_collision
        (acc.1.add (Vec3.smul threat_weight threat.avoidance_vector),
         acc.2 + threat_weight))
      (Vec3.zero, 0.0)
  let avoidance_vector :=
    if 0 < acc.2 then Vec3.smul (1 / acc.2) acc.1 else acc.1
  let target_pos :=
    match p.safe_directions with
    | [] => current_pos.add ((Vec3.mk 0 5 0).add avoidance_vector)
    | _ :: _ =>
      let best := chooseBestSafeDirection avoidance_vector p.safe_directions
      let safe_vector : Vec3 :=
        ⟨Real.cos best.2 * Real.cos best.1 * 5.0, Real.sin best.2 * 5.0,
         Real.cos best.2 * Real.sin best.1 * 5.0⟩
      current_pos.add safe_vector
  let position_error := target_pos.sub current_pos
  let r := m.position_controller.update position_error m.update_interval
  let control_output := r.1
  ({ timestamp := now,
     thrust := clip (0.5 + control_output.y) 0.3 1.0,
     pitch := clip control_output.x (-1.0) 1.0,
     roll := clip control_output.z (-1.0) 1.0,
     yaw := 0.0,
     mode_flags := [("avoid", true), ("emergency_maneuver", true)] },
   { m with position_controller := r.2 })

/-- `ControlModule._apply_safety_limits`. -/
def applySafetyLimits (m : ControlModule) (command : DroneCommand) (p : PerceptionState) :
    DroneCommand :=
  let thrust := clip command.thrust 0.0 m.max_thrust
  let max_tilt_rad := m.max_tilt_angle * (Real.pi / 180)
  let pitch := clip command.pitch (-max_tilt_rad) max_tilt_rad
  let roll := clip command.roll (-max_tilt_rad) max_tilt_rad
  let yaw := clip command.yaw (-1.0) 1.0
  let current_altitude := p.drone_position.y
  let tp : ℝ × ℝ :=
    if current_altitude < m.min_altitude ∧ thrust < 0.6 then (0.6, max pitch 0.0)
    else (thrust, pitch)
  { command with thrust := tp.1, pitch := tp.2, roll := roll, yaw := yaw }

/-- `ControlModule._log_control_action` (keeps the last 500 entries once
the history exceeds 1000). -/
def logControlAction (m : ControlModule) (_command : ControlCommand) (p : PerceptionState)
    (drone_cmd : DroneCommand) (now : ℝ) : ControlModule :=
  let entry : LogEntry :=
    { timestamp := now, mode := m.current_mode, emergency := m.emergency_mode,
      thrust := drone_cmd.thrust, pitch := drone_cmd.pitch, roll := drone_cmd.roll,
      yaw := drone_cmd.yaw, position := p.drone_position,
      target_distance := p.target_distance, battery := p.battery_level,
      threats := p.immediate_threats.length }
  let h := m.control_history ++ [entry]
  let h := if h.length > 1000 then h.drop (h.length - 500) else h
  { m with control_history := h }

/-- The new-command test at the top of `execute_command`. -/
def isNewCommand (m : ControlModule) (command : ControlCommand) : Bool :=
  match m.current_command with
  | none => true
  | some c => decide (command.command_id ≠ c.command_id)

/-- The command-update step at the top of `execute_command`. -/
def commandUpdate (m : ControlModule) (command : ControlCommand) (now : ℝ) :
    ControlModule :=
  if isNewCommand m command then
    { m with current_command := some command, command_start_time := now,
             current_mode := command.mode }
  else m

/-- `ControlModule.execute_command`, one control tick: command update,
emergency check, mode dispatch (emergency first, unknown modes falling
through to hover), safety limits, logging. -/
def executeCommand (m : ControlModule) (command : ControlCommand) (p : PerceptionState)
    (now : ℝ) : DroneCommand × ControlModule :=
  let m := commandUpdate m command now
  let m := checkEmergencyConditions m p
  let r :=
    if m.emergency_mode then executeEmergencyControl m p now
    else
      match m.current_mode with
      | .hover => executeHoverControl m p now
      | .waypoint => executeWaypointControl m command p now
      | .intercept => executeInterceptControl m command p now
      | .avoid => executeAvoidanceControl m command p now
      | _ => executeHoverControl m p now
  let drone_cmd := applySafetyLimits r.2 r.1 p
  let m := logControlAction r.2 command p drone_cmd now
  (drone_cmd, m)

/-- A run of the control loop: execute one tick per
(command, perception, wall-clock time) input, collecting the emitted
drone commands. -/
def runControl : ControlModule → List (ControlCommand × PerceptionState × ℝ) →
    List DroneCommand × ControlModule
  | m, [] => ([], m)
  | m, input :: rest =>
    let r := executeCommand m input.1 input.2.1 input.2.2
    let rec_result := runControl r.2 rest
    (r.1 :: rec_result.1, rec_result.2)

/-! ## Claim C5: Kalman smoother update -/

/-- A filter that has already been seeded by a first call (estimate present),
used to exercise the second-call formulas. -/
def seededFilter : SimpleKalmanFilter :=
  { process_noise := 0.1, measurement_noise := 0.5, estimate := some ⟨0, 0, 0⟩,
    estimate_error := 1.0 }

/-- C5 counterexample: starting from the fresh filter, feed measurement
(0,0,0) then (1,0,0).  The code returns estimate 11/16 on the second call
(gain (prior+process)/(prior+process+measurement) = 1.1/1.6), while the
claim's formula `gain = prior_error / (prior_error + measurement_noise)`
predicts 0 + (1/1.5)·(1−0) = 2/3 ≠ 11/16. -/
theorem C5_counterexample :
    (SimpleKalmanFilter.init.update ⟨0, 0, 0⟩).1 = ⟨0, 0, 0⟩ ∧
    (SimpleKalmanFilter.init.update ⟨0, 0, 0⟩).2.estimate = some ⟨0, 0, 0⟩ ∧
    (SimpleKalmanFilter.init.update ⟨0, 0, 0⟩).2.estimate_error = 1 ∧
    ((SimpleKalmanFilter.init.update ⟨0, 0, 0⟩).2.update ⟨1, 0, 0⟩).1.x = 11 / 16 ∧
    (0 : ℝ) + specKalmanGain 1 0.5 * (1 - 0) = 2 / 3 ∧
    (11 / 16 : ℝ) ≠ 2 / 3 := by
  refine ⟨rfl, rfl, ?_, ?_, ?_, by norm_num⟩
  · simp [SimpleKalmanFilter.init, SimpleKalmanFilter.update]
    norm_num
  · simp [SimpleKalmanFilter.init, SimpleKalmanFilter.update, Vec3.add, Vec3.sub, Vec3.smul]
    norm_num
  · simp [specKalmanGain]
    norm_num

/-- C5 (amended): the first call returns the measurement unchanged and
seeds the estimate; every subsequent call uses the predicted error
`prior_error + process_noise` in the gain, i.e.
`gain = (prior_error + process_noise) / (prior_error + process_noise + measurement_noise)`,
sets `estimate := estimate + gain·(measurement − estimate)` componentwise,
sets `error := (1 − gain)·(prior_error + process_noise)`, and returns the
new estimate; the update is a total function, so it never fails. -/
theorem C5_kalman_update_formulas (f : SimpleKalmanFilter) (m : Vec3) :
    (f.estimate = none → f.update m = (m, { f with estimate := some m })) ∧
    (∀ e, f.estimate = some e →
      f.update m =
        (Vec3.mk
          (e.x + (f.estimate_error + f.process_noise) /
            (f.estimate_error + f.process_noise + f.measurement_noise) * (m.x - e.x))
          (e.y + (f.estimate_error + f.process_noise) /
            (f.estimate_error + f.process_noise + f.measurement_noise) * (m.y - e.y))
          (e.z + (f.estimate_error + f.process_noise) /
            (f.estimate_error + f.process_noise + f.measurement_noise) * (m.z - e.z)),
         { f with
             estimate := some (Vec3.mk
               (e.x + (f.estimate_error + f.process_noise) /
                 (f.estimate_error + f.process_noise + f.measurement_noise) * (m.x - e.x))
               (e.y + (f.estimate_error + f.process_noise) /
                 (f.estimate_error + f.process_noise + f.measurement_noise) * (m.y - e.y))
               (e.z + (f.estimate_error + f.process_noise) /
                 (f.estimate_error + f.process_noise + f.measurement_noise) * (m.z - e.z))),
             estimate_error :=
               (1 - (f.estimate_error + f.process_noise) /
                 (f.estimate_error + f.process_noise + f.measurement_noise)) *
                 (f.estimate_error + f.process_noise) })) := by
  constructor
  · intro h
    unfold SimpleKalmanFilter.update
    rw [h]
  · intro e h
    unfold SimpleKalmanFilter.update
    rw [h]
    simp [Vec3.add, Vec3.sub, Vec3.smul]

/-- Witness for C5 (amended): the second-call formula evaluated on the
seeded filter with measurement (1,0,0) yields estimate 11/16 and error
11/32. -/
theorem C5_kalman_update_formulas_witness :
    seededFilter.update ⟨1, 0, 0⟩ =
      (⟨11 / 16, 0, 0⟩,
       { seededFilter with estimate := some ⟨11 / 16, 0, 0⟩, estimate_error := 11 / 32 }) := by
  have h := (C5_kalman_update_formulas seededFilter ⟨1, 0, 0⟩).2 ⟨0, 0, 0⟩ rfl
  rw [h]
  simp only [seededFilter, Prod.mk.injEq, SimpleKalmanFilter.mk.injEq, Vec3.mk.injEq]
  norm_num

/-! ## Claim C10: bounded perception history -/

/-- Helper: `_update_history` preserves the 50-entry bound on all three
buffers. -/
lemma updateHistory_bounded (pm : PerceptionModule) (t : ℝ) (sim : SimulationState)
    (hp : pm.position_history.length ≤ 50) (ht : pm.target_history.length ≤ 50)
    (hv : pm.velocity_history.length ≤ 50) :
    (updateHistory pm t sim).position_history.length ≤ 50 ∧
    (updateHistory pm t sim).target_history.length ≤ 50 ∧
    (updateHistory pm t sim).velocity_history.length ≤ 50 := by
  unfold updateHistory
  refine ⟨?_, ?_, ?_⟩
  · simp only []
    split <;> simp_all
  · simp only []
    split
    · split <;> simp_all
    · simpa using ht
  · simp only []
    split <;> simp_all

/-- Helper: `process_state` preserves the 50-entry bound. -/
lemma processState_bounded (pm : PerceptionModule) (sim : SimulationState) (now : ℝ)
    (hp : pm.position_history.length ≤ 50) (ht : pm.target_history.length ≤ 50)
    (hv : pm.velocity_history.length ≤ 50) :
    (processState pm sim now).2.position_history.length ≤ 50 ∧
    (processState pm sim now).2.target_history.length ≤ 50 ∧
    (processState pm sim now).2.velocity_history.length ≤ 50 := by
  unfold processState
  exact updateHistory_bounded _ now sim hp ht hv

/-- Helper: any run of the perception loop preserves the bound. -/
lemma runPerception_bounded (inputs : List (SimulationState × ℝ)) :
    ∀ pm : PerceptionModule,
      pm.position_history.length ≤ 50 → pm.target_history.length ≤ 50 →
      pm.velocity_history.length ≤ 50 →
      (runPerception pm inputs).position_history.length ≤ 50 ∧
      (runPerception pm inputs).target_history.length ≤ 50 ∧
      (runPerception pm inputs).velocity_history.length ≤ 50 := by
  induction inputs with
  | nil => intro pm hp ht hv; exact ⟨hp, ht, hv⟩
  | cons input rest ih =>
    intro pm hp ht hv
    have h := processState_bounded pm input.1 input.2 hp ht hv
    exact ih _ h.1 h.2.1 h.2.2

/-- C10: after every call to `process_state` (that is, after any run of
the perception loop from a fresh module), each of the three history
buffers holds at most 50 entries, so perception memory is bounded
regardless of how many ticks run. -/
theorem C10_history_bounded (inputs : List (SimulationState × ℝ)) :
    (runPerception PerceptionModule.init inputs).position_history.length ≤ 50 ∧
    (runPerception PerceptionModule.init inputs).target_history.length ≤ 50 ∧
    (runPerception PerceptionModule.init inputs).velocity_history.length ≤ 50 :=
  runPerception_bounded inputs PerceptionModule.init (by simp [PerceptionModule.init])
    (by simp [PerceptionModule.init]) (by simp [PerceptionModule.init])

/-- A benign flight envelope used in sample perception snapshots. -/
def sampleEnvelope : FlightEnvelope :=
  { max_speed := 15, max_acceleration := 8, max_climb_rate := 5, max_descent_rate := 3,
    max_bank_angle := 45, battery_limit_factor := 0.85, altitude_limits := (1, 100),
    emergency_reserves := true }

/-- A benign perception snapshot: drone at altitude 5, battery 85 %, no
target, no obstacles, no threats. -/
def samplePerception : PerceptionState :=
  { timestamp := 0, drone_position := ⟨0, 5, 0⟩, drone_velocity := ⟨0, 0, 0⟩,
    drone_orientation := ⟨0, 0, 0⟩, target_position := none, target_velocity := none,
    target_visible := false, target_distance := none, target_bearing := (0, 0),
    obstacles := [], immediate_threats := [], safe_directions := [],
    battery_level := 85, flight_envelope := sampleEnvelope }

/-- A plain hover command. -/
def sampleCommand : ControlCommand :=
  { command_id := "cmd-1", timestamp := 0, mode := .hover, target_position := none,
    target_velocity := none, duration_ms := 100, urgency := "low" }

/-! ## Claim C1: the safety limiter bounds every emitted command -/

/-- `clip` never exceeds the upper bound. -/
lemma clip_le (x lo hi : ℝ) : clip x lo hi ≤ hi := min_le_right _ _

/-- `clip` never goes below the lower bound (when the bounds are ordered). -/
lemma le_clip (x lo hi : ℝ) (h : lo ≤ hi) : lo ≤ clip x lo hi :=
  le_min (le_max_right _ _) h

/-- The configuration constants of the control module (never mutated by any
code path of `execute_command`). -/
def sameConstants (a b : ControlModule) : Prop :=
  a.update_interval = b.update_interval ∧ a.max_tilt_angle = b.max_tilt_angle ∧
  a.max_thrust = b.max_thrust ∧ a.min_altitude = b.min_altitude ∧
  a.max_altitude = b.max_altitude

lemma sameConstants_refl (a : ControlModule) : sameConstants a a :=
  ⟨rfl, rfl, rfl, rfl, rfl⟩

lemma sameConstants_trans {a b c : ControlModule}
    (h1 : sameConstants a b) (h2 : sameConstants b c) : sameConstants a c := by
  obtain ⟨u1, t1, m1, n1, x1⟩ := h1
  obtain ⟨u2, t2, m2, n2, x2⟩ := h2
  exact ⟨u1.trans u2, t1.trans t2, m1.trans m2, n1.trans n2, x1.trans x2⟩

lemma commandUpdate_constants (m : ControlModule) (c : ControlCommand) (now : ℝ) :
    sameConstants (commandUpdate m c now) m := by
  unfold commandUpdate
  split <;> exact ⟨rfl, rfl, rfl, rfl, rfl⟩

lemma triggerEmergency_constants (m : ControlModule) (r : EmergencyReason) :
    sameConstants (triggerEmergency m r) m := by
  unfold triggerEmergency
  split <;> exact ⟨rfl, rfl, rfl, rfl, rfl⟩

lemma checkEmergencyConditions_constants (m : ControlModule) (p : PerceptionState) :
    sameConstants (checkEmergencyConditions m p) m := by
  unfold checkEmergencyConditions
  split
  · exact triggerEmergency_constants _ _
  · split
    · exact triggerEmergency_constants _ _
    · split
      · exact triggerEmergency_constants _ _
      · split
        · exact triggerEmergency_constants _ _
        · split
          · exact ⟨rfl, rfl, rfl, rfl, rfl⟩
          · exact sameConstants_refl _

lemma executeEmergencyControl_constants (m : ControlModule) (p : PerceptionState) (now : ℝ) :
    sameConstants (executeEmergencyControl m p now).2 m := by
  unfold executeEmergencyControl
  exact ⟨rfl, rfl, rfl, rfl, rfl⟩

lemma executeHoverControl_constants (m : ControlModule) (p : PerceptionState) (now : ℝ) :
    sameConstants (executeHoverControl m p now).2 m := by
  unfold executeHoverControl
  rcases m.hover_target <;> exact ⟨rfl, rfl, rfl, rfl, rfl⟩

lemma executeWaypointControl_constants (m : ControlModule) (c : ControlCommand)
    (p : PerceptionState) (now : ℝ) :
    sameConstants (executeWaypointControl m c p now).2 m := by
  unfold executeWaypointControl
  rcases c.target_position with _ | t
  · exact executeHoverControl_constants _ _ _
  · exact ⟨rfl, rfl, rfl, rfl, rfl⟩

lemma executeInterceptControl_constants (m : ControlModule) (c : ControlCommand)
    (p : PerceptionState) (now : ℝ) :
    sameConstants (executeInterceptControl m c p now).2 m := by
  unfold executeInterceptControl
  rcases p.target_position with _ | t
  · exact executeHoverControl_constants _ _ _
  · exact ⟨rfl, rfl, rfl, rfl, rfl⟩

lemma executeAvoidanceControl_constants (m : ControlModule) (c : ControlCommand)
    (p : PerceptionState) (now : ℝ) :
    sameConstants (executeAvoidanceControl m c p now).2 m := by
  unfold executeAvoidanceControl
  exact ⟨rfl, rfl, rfl, rfl, rfl⟩

lemma logControlAction_constants (m : ControlModule) (c : ControlCommand)
    (p : PerceptionState) (dc : DroneCommand) (now : ℝ) :
    sameConstants (logControlAction m c p dc now) m := by
  unfold logControlAction
  exact ⟨rfl, rfl, rfl, rfl, rfl⟩

/-- The mode-dispatch step of `execute_command` (everything between the
emergency check and the safety limiter). -/
def modeDispatch (m : ControlModule) (command : ControlCommand) (p : PerceptionState)
    (now : ℝ) : DroneCommand × ControlModule :=
  if m.emergency_mode then executeEmergencyControl m p now
  else
    match m.current_mode with
    | .hover => executeHoverControl m p now
    | .waypoint => executeWaypointControl m command p now
    | .intercept => executeInterceptControl m command p now
    | .avoid => executeAvoidanceControl m command p now
    | _ => executeHoverControl m p now

lemma modeDispatch_constants (m : ControlModule) (c : ControlCommand)
    (p : PerceptionState) (now : ℝ) : sameConstants (modeDispatch m c p now).2 m := by
  unfold modeDispatch
  split
  · exact executeEmergencyControl_constants _ _ _
  · split
    · exact executeHoverControl_constants _ _ _
    · exact executeWaypointControl_constants _ _ _ _
    · exact executeInterceptControl_constants _ _ _ _
    · exact executeAvoidanceControl_constants _ _ _ _
    · exact executeHoverControl_constants _ _ _

/-- `execute_command` expressed through `modeDispatch`. -/
lemma executeCommand_eq (m : ControlModule) (c : ControlCommand) (p : PerceptionState)
    (now : ℝ) :
    executeCommand m c p now =
      (let m1 := checkEmergencyConditions (commandUpdate m c now) p
       let r := modeDispatch m1 c p now
       let dc := applySafetyLimits r.2 r.1 p
       (dc, logControlAction r.2 c p dc now)) := by
  unfold executeCommand modeDispatch
  rfl

/-- Bounds guaranteed by `_apply_safety_limits` for any incoming command. -/
lemma applySafetyLimits_bounds (m : ControlModule) (c : DroneCommand) (p : PerceptionState)
    (hthrust : 0.6 ≤ m.max_thrust) (htilt : 0 ≤ m.max_tilt_angle) :
    0 ≤ (applySafetyLimits m c p).thrust ∧
    (applySafetyLimits m c p).thrust ≤ m.max_thrust ∧
    -(m.max_tilt_angle * (Real.pi / 180)) ≤ (applySafetyLimits m c p).pitch ∧
    (applySafetyLimits m c p).pitch ≤ m.max_tilt_angle * (Real.pi / 180) ∧
    -(m.max_tilt_angle * (Real.pi / 180)) ≤ (applySafetyLimits m c p).roll ∧
    (applySafetyLimits m c p).roll ≤ m.max_tilt_angle * (Real.pi / 180) ∧
    -1 ≤ (applySafetyLimits m c p).yaw ∧ (applySafetyLimits m c p).yaw ≤ 1 := by
  have hpi : (0 : ℝ) < Real.pi / 180 := by positivity
  have hrad : 0 ≤ m.max_tilt_angle * (Real.pi / 180) := mul_nonneg htilt hpi.le
  have hradpair : -(m.max_tilt_angle * (Real.pi / 180)) ≤ m.max_tilt_angle * (Real.pi / 180) :=
    le_trans (neg_nonpos_of_nonneg hrad) hrad
  have hmt : (0 : ℝ) ≤ m.max_thrust := le_trans (by norm_num) hthrust
  unfold applySafetyLimits
  dsimp only
  split
  · refine ⟨by norm_num, by linarith, ?_, ?_, ?_, ?_, ?_, ?_⟩
    · have h1 := le_max_right
        (clip c.pitch (-(m.max_tilt_angle * (Real.pi / 180))) (m.max_tilt_angle * (Real.pi / 180)))
        (0.0 : ℝ)
      linarith
    · exact max_le (clip_le _ _ _) (by linarith)
    · exact le_clip _ _ _ hradpair
    · exact clip_le _ _ _
    · have h1 := le_clip c.yaw (-1.0) 1.0 (by norm_num)
      linarith
    · have h1 := clip_le c.yaw (-1.0) 1.0
      linarith
  · refine ⟨?_, ?_, le_clip _ _ _ hradpair, clip_le _ _ _,
      le_clip _ _ _ hradpair, clip_le _ _ _, ?_, ?_⟩
    · have h1 := le_clip c.thrust 0.0 m.max_thrust (by linarith)
      linarith
    · exact clip_le _ _ _
    · have h1 := le_clip c.yaw (-1.0) 1.0 (by norm_num)
      linarith
    · have h1 := clip_le c.yaw (-1.0) 1.0
      linarith

/-- C1: for every tick and every input (all modes, including emergency),
the emitted `DroneCommand` satisfies thrust ∈ [0, max_thrust],
pitch, roll ∈ [−max_tilt, max_tilt] (the tilt limit in radians,
`max_tilt_angle·π/180`), and yaw ∈ [−1, 1]; the limiter is applied last on
every code path (`executeCommand_eq`), so no mode can bypass it.  The two
hypotheses record the initialized configuration (`max_thrust = 0.8 ≥ 0.6`,
`max_tilt_angle = 45 ≥ 0`), which no code path mutates. -/
theorem C1_safety_limits (m : ControlModule) (command : ControlCommand)
    (p : PerceptionState) (now : ℝ)
    (hthrust : 0.6 ≤ m.max_thrust) (htilt : 0 ≤ m.max_tilt_angle) :
    0 ≤ (executeCommand m command p now).1.thrust ∧
    (executeCommand m command p now).1.thrust ≤ m.max_thrust ∧
    -(m.max_tilt_angle * (Real.pi / 180)) ≤ (executeCommand m command p now).1.pitch ∧
    (executeCommand m command p now).1.pitch ≤ m.max_tilt_angle * (Real.pi / 180) ∧
    -(m.max_tilt_angle * (Real.pi / 180)) ≤ (executeCommand m command p now).1.roll ∧
    (executeCommand m command p now).1.roll ≤ m.max_tilt_angle * (Real.pi / 180) ∧
    -1 ≤ (executeCommand m command p now).1.yaw ∧
    (executeCommand m command p now).1.yaw ≤ 1 := by
  rw [executeCommand_eq]
  simp only []
  set m1 := checkEmergencyConditions (commandUpdate m command now) p with hm1
  set r := modeDispatch m1 command p now with hr
  have hc : sameConstants r.2 m := by
    refine sameConstants_trans (modeDispatch_constants _ _ _ _) ?_
    exact sameConstants_trans (checkEmergencyConditions_constants _ _)
      (commandUpdate_constants _ _ _)
  obtain ⟨-, htiltc, hthrc, -, -⟩ := hc
  have := applySafetyLimits_bounds r.2 r.1 p (hthrc ▸ hthrust) (htiltc ▸ htilt)
  rw [hthrc, htiltc] at this
  exact this

/-- Witness for C1: the initialized module with a hover command and a
benign perception snapshot satisfies the hypotheses and hence the bounds. -/
theorem C1_safety_limits_witness :
    (0.6 ≤ (ControlModule.init 0).max_thrust) ∧
    (0 ≤ (ControlModule.init 0).max_tilt_angle) ∧
    (0 ≤ (executeCommand (ControlModule.init 0) sampleCommand samplePerception 0).1.thrust ∧
     (executeCommand (ControlModule.init 0) sampleCommand samplePerception 0).1.thrust ≤
       (ControlModule.init 0).max_thrust ∧
     -((ControlModule.init 0).max_tilt_angle * (Real.pi / 180)) ≤
       (executeCommand (ControlModule.init 0) sampleCommand samplePerception 0).1.pitch ∧
     (executeCommand (ControlModule.init 0) sampleCommand samplePerception 0).1.pitch ≤
       (ControlModule.init 0).max_tilt_angle * (Real.pi / 180) ∧
     -((ControlModule.init 0).max_tilt_angle * (Real.pi / 180)) ≤
       (executeCommand (ControlModule.init 0) sampleCommand samplePerception 0).1.roll ∧
     (executeCommand (ControlModule.init 0) sampleCommand samplePerception 0).1.roll ≤
       (ControlModule.init 0).max_tilt_angle * (Real.pi / 180) ∧
     -1 ≤ (executeCommand (ControlModule.init 0) sampleCommand samplePerception 0).1.yaw ∧
     (executeCommand (ControlModule.init 0) sampleCommand samplePerception 0).1.yaw ≤ 1) := by
  refine ⟨by norm_num [ControlModule.init], by norm_num [ControlModule.init], ?_⟩
  exact C1_safety_limits (ControlModule.init 0) sampleCommand samplePerception 0
    (by norm_num [ControlModule.init]) (by norm_num [ControlModule.init])

/-! ## Claim C2: emergency latching -/

/-- The emergency-trigger predicate evaluated by
`_check_emergency_conditions`: low battery, a critical threat, or an
altitude excursion. -/
def emergencyPredicate (m : ControlModule) (p : PerceptionState) : Prop :=
  p.battery_level < 15 ∨ (∃ t ∈ p.immediate_threats, t.urgency = Urgency.critical) ∨
  p.drone_position.y < m.min_altitude ∨ p.drone_position.y > m.max_altitude

lemma triggerEmergency_mode (m : ControlModule) (r : EmergencyReason) :
    (triggerEmergency m r).emergency_mode = true := by
  unfold triggerEmergency
  split
  · assumption
  · rfl

/-- After the check, the emergency latch is set exactly when some
emergency predicate holds on this tick. -/
lemma checkEmergency_mode_iff (m : ControlModule) (p : PerceptionState) :
    (checkEmergencyConditions m p).emergency_mode = true ↔ emergencyPredicate m p := by
  unfold checkEmergencyConditions emergencyPredicate
  split
  case isTrue hb =>
    simp only [triggerEmergency_mode, true_iff]
    exact Or.inl (by linarith)
  case isFalse hb =>
    cases hf : p.immediate_threats.find? (fun t => decide (t.urgency = Urgency.critical)) with
    | some t =>
      have ht := List.mem_of_find?_eq_some hf
      have hcrit := List.find?_some hf
      simp only [triggerEmergency_mode, true_iff]
      exact Or.inr (Or.inl ⟨t, ht, by simpa using hcrit⟩)
    | none =>
      have hnone : ∀ t ∈ p.immediate_threats, ¬ t.urgency = Urgency.critical := by
        intro t htmem
        simpa using List.find?_eq_none.mp hf t htmem
      dsimp only
      split
      · rename_i hmin
        simp only [triggerEmergency_mode, true_iff]
        exact Or.inr (Or.inr (Or.inl hmin))
      · rename_i hmin
        split
        · rename_i hmax
          simp only [triggerEmergency_mode, true_iff]
          exact Or.inr (Or.inr (Or.inr hmax))
        · rename_i hmax
          have hnp : ¬ (p.battery_level < 15 ∨
              (∃ t ∈ p.immediate_threats, t.urgency = Urgency.critical) ∨
              p.drone_position.y < m.min_altitude ∨ p.drone_position.y > m.max_altitude) := by
            rintro (h | ⟨t, ht, hc⟩ | h | h)
            · exact hb (by linarith)
            · exact hnone t ht hc
            · exact hmin h
            · exact hmax h
          split
          · simpa using hnp
          · rename_i hem
            simp only [Bool.not_eq_true] at hem
            rw [hem]
            simpa using hnp

/-- Two modules with the same constants agree on the emergency predicate. -/
lemma emergencyPredicate_congr {a b : ControlModule} (h : sameConstants a b)
    (p : PerceptionState) : emergencyPredicate a p ↔ emergencyPredicate b p := by
  obtain ⟨-, -, -, hmin, hmax⟩ := h
  unfold emergencyPredicate
  rw [hmin, hmax]

lemma executeCommand_constants (m : ControlModule) (c : ControlCommand)
    (p : PerceptionState) (now : ℝ) : sameConstants (executeCommand m c p now).2 m := by
  rw [executeCommand_eq]
  dsimp only
  refine sameConstants_trans (logControlAction_constants _ _ _ _ _) ?_
  refine sameConstants_trans (modeDispatch_constants _ _ _ _) ?_
  exact sameConstants_trans (checkEmergencyConditions_constants _ _)
    (commandUpdate_constants _ _ _)

lemma applySafetyLimits_flags (m : ControlModule) (c : DroneCommand) (p : PerceptionState) :
    (applySafetyLimits m c p).mode_flags = c.mode_flags := rfl

lemma executeEmergencyControl_flags (m : ControlModule) (p : PerceptionState) (now : ℝ) :
    (executeEmergencyControl m p now).1.mode_flags =
      [("emergency", true), ("landing", true)] := rfl

lemma executeHoverControl_flags (m : ControlModule) (p : PerceptionState) (now : ℝ) :
    (executeHoverControl m p now).1.mode_flags = [("hover", true)] := by
  unfold executeHoverControl
  cases h : m.hover_target <;> simp [h]

lemma executeWaypointControl_flags (m : ControlModule) (c : ControlCommand)
    (p : PerceptionState) (now : ℝ) :
    (executeWaypointControl m c p now).1.mode_flags = [("hover", true)] ∨
    (executeWaypointControl m c p now).1.mode_flags = [("waypoint", true)] := by
  unfold executeWaypointControl
  cases h : c.target_position with
  | none => exact Or.inl (executeHoverControl_flags _ _ _)
  | some t => exact Or.inr rfl

lemma executeInterceptControl_flags (m : ControlModule) (c : ControlCommand)
    (p : PerceptionState) (now : ℝ) :
    (executeInterceptControl m c p now).1.mode_flags = [("hover", true)] ∨
    (executeInterceptControl m c p now).1.mode_flags =
      [("intercept", true), ("aggressive", true)] := by
  unfold executeInterceptControl
  cases h : p.target_position with
  | none => exact Or.inl (executeHoverControl_flags _ _ _)
  | some t => exact Or.inr rfl

lemma executeAvoidanceControl_flags (m : ControlModule) (c : ControlCommand)
    (p : PerceptionState) (now : ℝ) :
    (executeAvoidanceControl m c p now).1.mode_flags =
      [("avoid", true), ("emergency_maneuver", true)] := rfl

/-- When an emergency predicate holds on a tick, the tick's output comes
from the emergency control law (identifiable by its flag dictionary, which
the safety limiter passes through unchanged). -/
lemma executeCommand_emergency_flags (m : ControlModule) (c : ControlCommand)
    (p : PerceptionState) (now : ℝ) (h : emergencyPredicate m p) :
    (executeCommand m c p now).1.mode_flags = [("emergency", true), ("landing", true)] := by
  rw [executeCommand_eq]
  dsimp only
  have hpred : emergencyPredicate (commandUpdate m c now) p :=
    (emergencyPredicate_congr (commandUpdate_constants m c now) p).mpr h
  have hm : (checkEmergencyConditions (commandUpdate m c now) p).emergency_mode = true :=
    (checkEmergency_mode_iff _ _).mpr hpred
  rw [applySafetyLimits_flags]
  unfold modeDispatch
  rw [hm]
  simp [executeEmergencyControl_flags]

/-- When no emergency predicate holds on a tick, the tick's output does not
come from the emergency control law. -/
lemma executeCommand_no_emergency_flags (m : ControlModule) (c : ControlCommand)
    (p : PerceptionState) (now : ℝ) (h : ¬ emergencyPredicate m p) :
    (executeCommand m c p now).1.mode_flags ≠ [("emergency", true), ("landing", true)] := by
  rw [executeCommand_eq]
  dsimp only
  have hpred : ¬ emergencyPredicate (commandUpdate m c now) p := fun hc =>
    h ((emergencyPredicate_congr (commandUpdate_constants m c now) p).mp hc)
  have hm : (checkEmergencyConditions (commandUpdate m c now) p).emergency_mode = false :=
    Bool.eq_false_iff.mpr (fun ht => hpred ((checkEmergency_mode_iff _ _).mp ht))
  rw [applySafetyLimits_flags]
  unfold modeDispatch
  rw [hm]
  simp only [Bool.false_eq_true, if_false]
  split
  · rw [executeHoverControl_flags]
    decide
  · rcases executeWaypointControl_flags (checkEmergencyConditions (commandUpdate m c now) p)
      c p now with hf | hf <;> rw [hf] <;> decide
  · rcases executeInterceptControl_flags (checkEmergencyConditions (commandUpdate m c now) p)
      c p now with hf | hf <;> rw [hf] <;> decide
  · rw [executeAvoidanceControl_flags]
    decide
  · rw [executeHoverControl_flags]
    decide

/-- Fallback output used for out-of-range list reads in run statements. -/
def defaultDroneCommand : DroneCommand :=
  { timestamp := 0, thrust := 0, pitch := 0, roll := 0, yaw := 0, mode_flags := [] }

/-- C2: over any run, if some emergency predicate (battery < 15, a
critical-urgency threat, or altitude outside [min_altitude, max_altitude])
holds on tick i and keeps holding through tick k, then the command emitted
at tick k is produced by the emergency control law, regardless of the
incoming `ControlCommand`; and on a tick where all predicates are false the
emitted command is not produced by the emergency law (the latch clears). -/
theorem C2_emergency_latching (m0 : ControlModule)
    (inputs : List (ControlCommand × PerceptionState × ℝ)) (i k : ℕ)
    (hik : i ≤ k) (hk : k < inputs.length) :
    ((∀ j (hj : j < inputs.length), i ≤ j → j ≤ k →
        emergencyPredicate m0 (inputs.get ⟨j, hj⟩).2.1) →
      ((runControl m0 inputs).1.getD k defaultDroneCommand).mode_flags =
        [("emergency", true), ("landing", true)]) ∧
    ((¬ emergencyPredicate m0 (inputs.get ⟨k, hk⟩).2.1) →
      ((runControl m0 inputs).1.getD k defaultDroneCommand).mode_flags ≠
        [("emergency", true), ("landing", true)]) := by
  induction inputs generalizing m0 i k with
  | nil => exact absurd hk (by simp)
  | cons input rest ih =>
    have hrun : (runControl m0 (input :: rest)).1 =
        (executeCommand m0 input.1 input.2.1 input.2.2).1 ::
          (runControl (executeCommand m0 input.1 input.2.1 input.2.2).2 rest).1 := by
      simp only [runControl]
    cases k with
    | zero =>
      constructor
      · intro hpred
        rw [hrun]
        simpa using executeCommand_emergency_flags m0 input.1 input.2.1 input.2.2
          (hpred 0 (by simp) hik (le_refl 0))
      · intro hnp
        rw [hrun]
        simpa using executeCommand_no_emergency_flags m0 input.1 input.2.1 input.2.2
          (by simpa using hnp)
    | succ n =>
      have hn : n < rest.length := by simpa using hk
      have hconst := executeCommand_constants m0 input.1 input.2.1 input.2.2
      have hcongr := fun p => emergencyPredicate_congr hconst p
      have hih := ih (executeCommand m0 input.1 input.2.1 input.2.2).2 (i - 1) n
        (by omega) hn
      constructor
      · intro hpred
        rw [hrun]
        simp only [List.getD_cons_succ]
        refine hih.1 ?_
        intro j hj hij hjn
        refine (hcongr _).mpr ?_
        have := hpred (j + 1) (by simpa using Nat.succ_lt_succ hj) (by omega)
          (by omega)
        simpa using this
      · intro hnp
        rw [hrun]
        simp only [List.getD_cons_succ]
        refine hih.2 ?_
        refine fun hc => hnp ?_
        have := (hcongr _).mp hc
        simpa using this

/-- A perception snapshot with battery at 10 %, triggering the low-battery
emergency predicate. -/
def lowBatteryPerception : PerceptionState :=
  { samplePerception with battery_level := 10 }

/-- Witness for C2: a two-tick run whose battery is below 15 % on both
ticks emits the emergency-law command on tick 1. -/
theorem C2_emergency_latching_witness :
    ((runControl (ControlModule.init 0)
        [(sampleCommand, lowBatteryPerception, (0 : ℝ)),
         (sampleCommand, lowBatteryPerception, (1 : ℝ))]).1.getD 1
        defaultDroneCommand).mode_flags = [("emergency", true), ("landing", true)] := by
  refine (C2_emergency_latching (ControlModule.init 0)
    [(sampleCommand, lowBatteryPerception, 0), (sampleCommand, lowBatteryPerception, 1)]
    0 1 (by norm_num) (by norm_num)).1 ?_
  intro j hj h0 h1
  interval_cases j <;>
    · norm_num [emergencyPredicate, lowBatteryPerception, samplePerception]

/-! ## Claim C7: unknown modes and missing waypoint targets fall back to hover -/

lemma triggerEmergency_mutable (m : ControlModule) (r : EmergencyReason) :
    (triggerEmergency m r).current_mode = m.current_mode ∧
    (triggerEmergency m r).command_start_time = m.command_start_time ∧
    (triggerEmergency m r).position_controller = m.position_controller := by
  unfold triggerEmergency
  split <;> exact ⟨rfl, rfl, rfl⟩

/-- The emergency check only touches the emergency latch and reason. -/
lemma checkEmergency_mutable (m : ControlModule) (p : PerceptionState) :
    (checkEmergencyConditions m p).current_mode = m.current_mode ∧
    (checkEmergencyConditions m p).command_start_time = m.command_start_time ∧
    (checkEmergencyConditions m p).position_controller = m.position_controller := by
  unfold checkEmergencyConditions
  split
  · exact triggerEmergency_mutable _ _
  · split
    · exact triggerEmergency_mutable _ _
    · split
      · exact triggerEmergency_mutable _ _
      · split
        · exact triggerEmergency_mutable _ _
        · split
          · exact ⟨rfl, rfl, rfl⟩
          · exact ⟨rfl, rfl, rfl⟩

/-- The command-update step under a fresh command id. -/
lemma commandUpdate_new (m : ControlModule) (c : ControlCommand) (now : ℝ)
    (h : isNewCommand m c = true) :
    (commandUpdate m c now).current_mode = c.mode ∧
    (commandUpdate m c now).command_start_time = now ∧
    (commandUpdate m c now).position_controller = m.position_controller := by
  unfold commandUpdate
  rw [h]
  exact ⟨rfl, rfl, rfl⟩

/-- C7: a fresh command whose mode is the extra `manual` tag (not one of
the five spec modes), or a waypoint command without a target position,
makes the executor run the hover control law for that tick, and the
output is still the safety-limited hover command (hence valid and total:
no error propagates). -/
theorem C7_malformed_command_hover (m : ControlModule) (c : ControlCommand)
    (p : PerceptionState) (now : ℝ)
    (hnew : isNewCommand m c = true)
    (hmode : c.mode = ControlMode.manual ∨
      (c.mode = ControlMode.waypoint ∧ c.target_position = none))
    (hnoem : ¬ emergencyPredicate m p) :
    (executeCommand m c p now).1 =
      applySafetyLimits
        (executeHoverControl (checkEmergencyConditions (commandUpdate m c now) p) p now).2
        (executeHoverControl (checkEmergencyConditions (commandUpdate m c now) p) p now).1
        p := by
  rw [executeCommand_eq]
  dsimp only
  have hpred : ¬ emergencyPredicate (commandUpdate m c now) p := fun hc =>
    hnoem ((emergencyPredicate_congr (commandUpdate_constants m c now) p).mp hc)
  have hem : (checkEmergencyConditions (commandUpdate m c now) p).emergency_mode = false :=
    Bool.eq_false_iff.mpr (fun ht => hpred ((checkEmergency_mode_iff _ _).mp ht))
  have hmodeeq : (checkEmergencyConditions (commandUpdate m c now) p).current_mode = c.mode := by
    rw [(checkEmergency_mutable _ _).1, (commandUpdate_new m c now hnew).1]
  unfold modeDispatch
  rw [hem, hmodeeq]
  simp only [Bool.false_eq_true, if_false]
  rcases hmode with hmanual | ⟨hwp, htp⟩
  · rw [hmanual]
  · rw [hwp]
    dsimp only
    unfold executeWaypointControl
    rw [htp]

/-- A command with the `manual` mode tag. -/
def manualCommand : ControlCommand :=
  { command_id := "cmd-manual", timestamp := 0, mode := .manual, target_position := none,
    target_velocity := none, duration_ms := 100, urgency := "low" }

/-- Witness for C7: the initialized module, a fresh `manual` command, and a
benign snapshot produce exactly the safety-limited hover output. -/
theorem C7_malformed_command_hover_witness :
    (executeCommand (ControlModule.init 0) manualCommand samplePerception 0).1 =
      applySafetyLimits
        (executeHoverControl
          (checkEmergencyConditions (commandUpdate (ControlModule.init 0) manualCommand 0)
            samplePerception) samplePerception 0).2
        (executeHoverControl
          (checkEmergencyConditions (commandUpdate (ControlModule.init 0) manualCommand 0)
            samplePerception) samplePerception 0).1
        samplePerception :=
  C7_malformed_command_hover (ControlModule.init 0) manualCommand samplePerception 0
    rfl (Or.inl rfl)
    (by norm_num [emergencyPredicate, samplePerception, ControlModule.init])

/-! ## Claim C9: no PID reset on mode entry; command id resets start time -/

/-- One PID update accumulates onto the previous integral: the new
integral is the old one plus dt times the newly stored error. -/
lemma pidUpdate_integral (c : PIDController3D) (e : Vec3) (dt : ℝ) :
    (c.update e dt).2.integral =
      c.integral.add (Vec3.smul dt (c.update e dt).2.prev_error) := by
  unfold PIDController3D.update
  rfl

/-- The dispatch step relates the position controller of its output to the
one of its input by exactly one (non-reset) PID update, and leaves the
current mode and command start time alone. -/
lemma modeDispatch_pid (m : ControlModule) (c : ControlCommand) (p : PerceptionState)
    (now : ℝ) :
    (modeDispatch m c p now).2.position_controller.integral =
      m.position_controller.integral.add
        (Vec3.smul m.update_interval (modeDispatch m c p now).2.position_controller.prev_error) ∧
    (modeDispatch m c p now).2.current_mode = m.current_mode ∧
    (modeDispatch m c p now).2.command_start_time = m.command_start_time := by
  unfold modeDispatch
  split
  · exact ⟨pidUpdate_integral _ _ _, rfl, rfl⟩
  · split
    · unfold executeHoverControl
      cases h : m.hover_target <;> simp only [h] <;>
        exact ⟨pidUpdate_integral _ _ _, by trivial, by trivial⟩
    · unfold executeWaypointControl
      cases h : c.target_position with
      | none =>
        dsimp only
        unfold executeHoverControl
        cases h2 : m.hover_target <;> simp only [h2] <;>
          exact ⟨pidUpdate_integral _ _ _, by trivial, by trivial⟩
      | some t => exact ⟨pidUpdate_integral _ _ _, rfl, rfl⟩
    · unfold executeInterceptControl
      cases h : p.target_position with
      | none =>
        dsimp only
        unfold executeHoverControl
        cases h2 : m.hover_target <;> simp only [h2] <;>
          exact ⟨pidUpdate_integral _ _ _, by trivial, by trivial⟩
      | some t => exact ⟨pidUpdate_integral _ _ _, rfl, rfl⟩
    · exact ⟨pidUpdate_integral _ _ _, rfl, rfl⟩
    · unfold executeHoverControl
      cases h : m.hover_target <;> simp only [h] <;>
        exact ⟨pidUpdate_integral _ _ _, by trivial, by trivial⟩

/-- C9 (amended): no code path of `execute_command` resets the PID — on
every tick, for every mode (fresh mode entry or not), the position
controller's integral is the previous integral plus dt times the stored
error (so stale integral state is carried across mode changes, contrary to
the claim); a new `command_id` resets the command start time to the
current wall-clock time and adopts the commanded mode; an unchanged
`command_id` leaves both alone. -/
theorem C9_pid_never_reset (m : ControlModule) (c : ControlCommand) (p : PerceptionState)
    (now : ℝ) :
    (executeCommand m c p now).2.position_controller.integral =
      m.position_controller.integral.add
        (Vec3.smul m.update_interval
          (executeCommand m c p now).2.position_controller.prev_error) ∧
    (executeCommand m c p now).2.command_start_time =
      (if isNewCommand m c then now else m.command_start_time) ∧
    (executeCommand m c p now).2.current_mode =
      (if isNewCommand m c then c.mode else m.current_mode) := by
  rw [executeCommand_eq]
  dsimp only
  have hlog : ∀ (mm : ControlModule) (cc : ControlCommand) (pp : PerceptionState)
      (dc : DroneCommand) (t : ℝ),
      (logControlAction mm cc pp dc t).position_controller = mm.position_controller ∧
      (logControlAction mm cc pp dc t).command_start_time = mm.command_start_time ∧
      (logControlAction mm cc pp dc t).current_mode = mm.current_mode :=
    fun _ _ _ _ _ => ⟨rfl, rfl, rfl⟩
  obtain ⟨hlp, hls, hlm⟩ := hlog (modeDispatch (checkEmergencyConditions
    (commandUpdate m c now) p) c p now).2 c p _ now
  rw [hlp, hls, hlm]
  obtain ⟨hdp, hdm, hds⟩ := modeDispatch_pid (checkEmergencyConditions
    (commandUpdate m c now) p) c p now
  obtain ⟨hcm, hcs, hcp⟩ := checkEmergency_mutable (commandUpdate m c now) p
  have hui : (checkEmergencyConditions (commandUpdate m c now) p).update_interval =
      m.update_interval := by
    obtain ⟨h1, -, -, -, -⟩ := checkEmergencyConditions_constants (commandUpdate m c now) p
    obtain ⟨h2, -, -, -, -⟩ := commandUpdate_constants m c now
    rw [h1, h2]
  have hcup : (commandUpdate m c now).position_controller = m.position_controller := by
    unfold commandUpdate
    split <;> rfl
  refine ⟨?_, ?_, ?_⟩
  · rw [hdp, hcp, hui, hcup]
  · rw [hds, hcs]
    unfold commandUpdate
    split <;> rfl
  · rw [hdm, hcm]
    unfold commandUpdate
    split <;> rfl

/-! ## Concrete tick evaluation helpers (for claims C6 and C9) -/

lemma commandUpdate_emergency (m : ControlModule) (c : ControlCommand) (now : ℝ) :
    (commandUpdate m c now).emergency_mode = m.emergency_mode := by
  unfold commandUpdate
  split <;> rfl

lemma commandUpdate_hover_target (m : ControlModule) (c : ControlCommand) (now : ℝ) :
    (commandUpdate m c now).hover_target = m.hover_target := by
  unfold commandUpdate
  split <;> rfl

lemma commandUpdate_pid (m : ControlModule) (c : ControlCommand) (now : ℝ) :
    (commandUpdate m c now).position_controller = m.position_controller := by
  unfold commandUpdate
  split <;> rfl

lemma commandUpdate_new_cc (m : ControlModule) (c : ControlCommand) (now : ℝ)
    (h : isNewCommand m c = true) :
    (commandUpdate m c now).current_command = some c := by
  unfold commandUpdate
  rw [h]
  rfl

lemma commandUpdate_old (m : ControlModule) (c : ControlCommand) (now : ℝ)
    (h : isNewCommand m c = false) : commandUpdate m c now = m := by
  unfold commandUpdate
  rw [h]
  rfl

/-- When no emergency predicate holds and the latch is already clear, the
emergency check is the identity. -/
lemma checkEmergency_id (m : ControlModule) (p : PerceptionState)
    (hnp : ¬ emergencyPredicate m p) (hem : m.emergency_mode = false) :
    checkEmergencyConditions m p = m := by
  have h1 : ¬ p.battery_level < 15.0 := fun h => hnp (Or.inl (by linarith))
  have hfind : p.immediate_threats.find? (fun t => decide (t.urgency = Urgency.critical)) =
      none := by
    refine List.find?_eq_none.mpr (fun t ht => ?_)
    simp only [decide_eq_true_iff]
    exact fun hc => hnp (Or.inr (Or.inl ⟨t, ht, hc⟩))
  have h3 : ¬ p.drone_position.y < m.min_altitude :=
    fun h => hnp (Or.inr (Or.inr (Or.inl h)))
  have h4 : ¬ p.drone_position.y > m.max_altitude :=
    fun h => hnp (Or.inr (Or.inr (Or.inr h)))
  unfold checkEmergencyConditions
  rw [if_neg h1, hfind]
  dsimp only
  rw [if_neg h3, if_neg h4, if_neg (by simp [hem])]

lemma logControlAction_state (m : ControlModule) (c : ControlCommand) (p : PerceptionState)
    (dc : DroneCommand) (now : ℝ) :
    (logControlAction m c p dc now).current_command = m.current_command ∧
    (logControlAction m c p dc now).current_mode = m.current_mode ∧
    (logControlAction m c p dc now).emergency_mode = m.emergency_mode ∧
    (logControlAction m c p dc now).hover_target = m.hover_target ∧
    (logControlAction m c p dc now).position_controller = m.position_controller :=
  ⟨rfl, rfl, rfl, rfl, rfl⟩

/-- The state of `_execute_hover_control`, written uniformly: the target
used (and frozen) is the stored one if present, else the current position. -/
lemma executeHover_state (m : ControlModule) (p : PerceptionState) (now : ℝ) :
    (executeHoverControl m p now).2.current_command = m.current_command ∧
    (executeHoverControl m p now).2.current_mode = m.current_mode ∧
    (executeHoverControl m p now).2.emergency_mode = m.emergency_mode ∧
    (executeHoverControl m p now).2.hover_target =
      some (m.hover_target.getD p.drone_position) ∧
    (executeHoverControl m p now).2.position_controller =
      (m.position_controller.update
        ((m.hover_target.getD p.drone_position).sub p.drone_position)
        m.update_interval).2 := by
  unfold executeHoverControl
  cases h : m.hover_target <;> simp [h]

/-- One benign tick whose dispatch resolves to the hover law (mode `hover`,
or mode `waypoint` with no target): state projections of the result. -/
lemma executeCommand_hover_tick (m : ControlModule) (c : ControlCommand)
    (p : PerceptionState) (now : ℝ)
    (hnp : ¬ emergencyPredicate m p) (hem : m.emergency_mode = false)
    (hmode : (commandUpdate m c now).current_mode = ControlMode.hover ∨
      ((commandUpdate m c now).current_mode = ControlMode.waypoint ∧
        c.target_position = none)) :
    (executeCommand m c p now).2.current_command = (commandUpdate m c now).current_command ∧
    (executeCommand m c p now).2.current_mode = (commandUpdate m c now).current_mode ∧
    (executeCommand m c p now).2.emergency_mode = false ∧
    (executeCommand m c p now).2.hover_target =
      some (m.hover_target.getD p.drone_position) ∧
    (executeCommand m c p now).2.position_controller =
      (m.position_controller.update
        ((m.hover_target.getD p.drone_position).sub p.drone_position)
        m.update_interval).2 := by
  have hnp1 : ¬ emergencyPredicate (commandUpdate m c now) p := fun hc =>
    hnp ((emergencyPredicate_congr (commandUpdate_constants m c now) p).mp hc)
  have hem1 : (commandUpdate m c now).emergency_mode = false := by
    rw [commandUpdate_emergency]
    exact hem
  have hchk : checkEmergencyConditions (commandUpdate m c now) p = commandUpdate m c now :=
    checkEmergency_id _ _ hnp1 hem1
  rw [executeCommand_eq]
  dsimp only
  rw [hchk]
  have hdisp : modeDispatch (commandUpdate m c now) c p now =
      executeHoverControl (commandUpdate m c now) p now := by
    unfold modeDispatch
    rw [hem1]
    simp only [Bool.false_eq_true, if_false]
    rcases hmode with hm | ⟨hm, htp⟩
    · rw [hm]
    · rw [hm]
      dsimp only
      unfold executeWaypointControl
      rw [htp]
  rw [hdisp]
  obtain ⟨l1, l2, l3, l4, l5⟩ := logControlAction_state
    (executeHoverControl (commandUpdate m c now) p now).2 c p
    (applySafetyLimits (executeHoverControl (commandUpdate m c now) p now).2
      (executeHoverControl (commandUpdate m c now) p now).1 p) now
  rw [l1, l2, l3, l4, l5]
  obtain ⟨e1, e2, e3, e4, e5⟩ := executeHover_state (commandUpdate m c now) p now
  rw [e1, e2, e3, e4, e5, commandUpdate_hover_target, commandUpdate_pid, hem1]
  obtain ⟨hui, -, -, -, -⟩ := commandUpdate_constants m c now
  rw [hui]
  exact ⟨rfl, rfl, rfl, rfl, rfl⟩

/-- One benign tick whose dispatch resolves to the waypoint law with a
target: state projections of the result (the hover set-point is untouched
and the PID is updated once with the waypoint error). -/
lemma executeCommand_waypoint_tick (m : ControlModule) (c : ControlCommand)
    (p : PerceptionState) (now : ℝ) (tgt : Vec3)
    (hnp : ¬ emergencyPredicate m p) (hem : m.emergency_mode = false)
    (hmode : (commandUpdate m c now).current_mode = ControlMode.waypoint)
    (htp : c.target_position = some tgt) :
    (executeCommand m c p now).2.current_command = (commandUpdate m c now).current_command ∧
    (executeCommand m c p now).2.current_mode = ControlMode.waypoint ∧
    (executeCommand m c p now).2.emergency_mode = false ∧
    (executeCommand m c p now).2.hover_target = m.hover_target ∧
    (executeCommand m c p now).2.position_controller =
      (m.position_controller.update (tgt.sub p.drone_position) m.update_interval).2 := by
  have hnp1 : ¬ emergencyPredicate (commandUpdate m c now) p := fun hc =>
    hnp ((emergencyPredicate_congr (commandUpdate_constants m c now) p).mp hc)
  have hem1 : (commandUpdate m c now).emergency_mode = false := by
    rw [commandUpdate_emergency]
    exact hem
  have hchk : checkEmergencyConditions (commandUpdate m c now) p = commandUpdate m c now :=
    checkEmergency_id _ _ hnp1 hem1
  rw [executeCommand_eq]
  dsimp only
  rw [hchk]
  have hdisp : modeDispatch (commandUpdate m c now) c p now =
      executeWaypointControl (commandUpdate m c now) c p now := by
    unfold modeDispatch
    rw [hem1]
    simp only [Bool.false_eq_true, if_false]
    rw [hmode]
  rw [hdisp]
  obtain ⟨l1, l2, l3, l4, l5⟩ := logControlAction_state
    (executeWaypointControl (commandUpdate m c now) c p now).2 c p
    (applySafetyLimits (executeWaypointControl (commandUpdate m c now) c p now).2
      (executeWaypointControl (commandUpdate m c now) c p now).1 p) now
  rw [l1, l2, l3, l4, l5]
  unfold executeWaypointControl
  rw [htp]
  dsimp only
  rw [commandUpdate_hover_target, commandUpdate_pid, hem1, hmode]
  obtain ⟨hui, -, -, -, -⟩ := commandUpdate_constants m c now
  rw [hui]
  exact ⟨rfl, rfl, rfl, rfl, rfl⟩

/-- The stored previous error after one PID update is the error fed in. -/
lemma pidUpdate_prev (c : PIDController3D) (e : Vec3) (dt : ℝ) :
    (c.update e dt).2.prev_error = e := rfl

/-- The integral after one PID update. -/
lemma pidUpdate_integral_val (c : PIDController3D) (e : Vec3) (dt : ℝ) :
    (c.update e dt).2.integral = c.integral.add (Vec3.smul dt e) := rfl

lemma runControl_state_cons (m : ControlModule)
    (input : ControlCommand × PerceptionState × ℝ)
    (rest : List (ControlCommand × PerceptionState × ℝ)) :
    (runControl m (input :: rest)).2 =
      (runControl (executeCommand m input.1 input.2.1 input.2.2).2 rest).2 := by
  simp only [runControl]

lemma runControl_state_nil (m : ControlModule) : (runControl m []).2 = m := rfl

/-! ## Claim C6: the hover set-point -/

/-- A benign perception snapshot at a given drone position (battery 85 %,
no threats, no target). -/
def hoverPerceptionAt (pos : Vec3) : PerceptionState :=
  { samplePerception with drone_position := pos }

/-- A hover command with a given id. -/
def cmdHover (id : String) : ControlCommand := { sampleCommand with command_id := id }

/-- A waypoint command with a given id and no target position. -/
def cmdWaypointNone (id : String) : ControlCommand :=
  { sampleCommand with command_id := id, mode := .waypoint }

/-- A waypoint command with a given id and target. -/
def cmdWaypointTo (id : String) (tgt : Vec3) : ControlCommand :=
  { sampleCommand with command_id := id, mode := .waypoint, target_position := some tgt }

/-- No emergency predicate fires on a benign snapshot at altitude 5 for a
module with the initial altitude limits. -/
lemma benign_perception (m : ControlModule) (pos : Vec3)
    (hmin : m.min_altitude = 1) (hmax : m.max_altitude = 100) (hy : pos.y = 5) :
    ¬ emergencyPredicate m (hoverPerceptionAt pos) := by
  rintro (h | ⟨t, ht, -⟩ | h | h)
  · norm_num [hoverPerceptionAt, samplePerception] at h
  · simp [hoverPerceptionAt, samplePerception] at ht
  · rw [hmin] at h
    simp only [hoverPerceptionAt, samplePerception] at h
    rw [hy] at h
    norm_num at h
  · rw [hmax] at h
    simp only [hoverPerceptionAt, samplePerception] at h
    rw [hy] at h
    norm_num at h

/-- The three-tick run refuting C6: hover at (0,5,0), then a tick at
(10,5,0) in waypoint mode (no target), then re-enter hover at (10,5,0). -/
def C6run : List (ControlCommand × PerceptionState × ℝ) :=
  [(cmdHover "a", hoverPerceptionAt ⟨0, 5, 0⟩, 0),
   (cmdWaypointNone "b", hoverPerceptionAt ⟨10, 5, 0⟩, 1),
   (cmdHover "c", hoverPerceptionAt ⟨10, 5, 0⟩, 2)]

/-- C6 counterexample: after re-entering hover at (10,5,0), the stored
set-point is still (0,5,0) — the position of the very first hover tick —
not the re-entry position, and the error fed to the position PID on the
re-entry tick is (0,5,0) − (10,5,0) = (−10,0,0), not the zero error the
claim's frozen-at-re-entry set-point would give. -/
theorem C6_counterexample :
    (runControl (ControlModule.init 0) C6run).2.hover_target = some ⟨0, 5, 0⟩ ∧
    (runControl (ControlModule.init 0) C6run).2.position_controller.prev_error =
      ⟨-10, 0, 0⟩ ∧
    Vec3.mk 0 5 0 ≠ Vec3.mk 10 5 0 := by
  have hruneq : (runControl (ControlModule.init 0) C6run).2 =
      (executeCommand
        (executeCommand
          (executeCommand (ControlModule.init 0) (cmdHover "a")
            (hoverPerceptionAt ⟨0, 5, 0⟩) 0).2
          (cmdWaypointNone "b") (hoverPerceptionAt ⟨10, 5, 0⟩) 1).2
        (cmdHover "c") (hoverPerceptionAt ⟨10, 5, 0⟩) 2).2 := by
    unfold C6run
    rw [runControl_state_cons]
    rw [runControl_state_cons]
    rw [runControl_state_cons]
    rw [runControl_state_nil]
  set s1 := (executeCommand (ControlModule.init 0) (cmdHover "a")
    (hoverPerceptionAt ⟨0, 5, 0⟩) 0).2 with hs1
  set s2 := (executeCommand s1 (cmdWaypointNone "b") (hoverPerceptionAt ⟨10, 5, 0⟩) 1).2
    with hs2
  set s3 := (executeCommand s2 (cmdHover "c") (hoverPerceptionAt ⟨10, 5, 0⟩) 2).2 with hs3
  -- tick 1
  have hnew1 : isNewCommand (ControlModule.init 0) (cmdHover "a") = true := rfl
  have hmode1 : (commandUpdate (ControlModule.init 0) (cmdHover "a") 0).current_mode =
      ControlMode.hover := by
    rw [(commandUpdate_new _ _ _ hnew1).1]
    rfl
  have t1 := executeCommand_hover_tick (ControlModule.init 0) (cmdHover "a")
    (hoverPerceptionAt ⟨0, 5, 0⟩) 0
    (benign_perception _ _ (by norm_num [ControlModule.init])
      (by norm_num [ControlModule.init]) rfl)
    rfl (Or.inl hmode1)
  obtain ⟨hcc1, -, hem1, hht1, -⟩ := t1
  rw [commandUpdate_new_cc _ _ _ hnew1] at hcc1
  have hht1v : s1.hover_target = some ⟨0, 5, 0⟩ := by
    rw [← hs1] at hht1
    rw [hht1]
    rfl
  rw [← hs1] at hcc1 hem1
  have hconst1 := executeCommand_constants (ControlModule.init 0) (cmdHover "a")
    (hoverPerceptionAt ⟨0, 5, 0⟩) 0
  rw [← hs1] at hconst1
  have hmin1 : s1.min_altitude = 1 := by
    rw [hconst1.2.2.2.1]
    norm_num [ControlModule.init]
  have hmax1 : s1.max_altitude = 100 := by
    rw [hconst1.2.2.2.2]
    norm_num [ControlModule.init]
  -- tick 2
  have hnew2 : isNewCommand s1 (cmdWaypointNone "b") = true := by
    unfold isNewCommand
    rw [hcc1]
    rfl
  have hmode2 : (commandUpdate s1 (cmdWaypointNone "b") 1).current_mode =
      ControlMode.waypoint := by
    rw [(commandUpdate_new _ _ _ hnew2).1]
    rfl
  have t2 := executeCommand_hover_tick s1 (cmdWaypointNone "b")
    (hoverPerceptionAt ⟨10, 5, 0⟩) 1
    (benign_perception _ _ hmin1 hmax1 rfl) hem1 (Or.inr ⟨hmode2, rfl⟩)
  obtain ⟨hcc2, -, hem2, hht2, -⟩ := t2
  rw [commandUpdate_new_cc _ _ _ hnew2] at hcc2
  rw [← hs2] at hcc2 hem2 hht2
  have hht2v : s2.hover_target = some ⟨0, 5, 0⟩ := by
    rw [hht2, hht1v]
    rfl
  have hconst2 := executeCommand_constants s1 (cmdWaypointNone "b")
    (hoverPerceptionAt ⟨10, 5, 0⟩) 1
  rw [← hs2] at hconst2
  have hmin2 : s2.min_altitude = 1 := by
    rw [hconst2.2.2.2.1]
    exact hmin1
  have hmax2 : s2.max_altitude = 100 := by
    rw [hconst2.2.2.2.2]
    exact hmax1
  -- tick 3
  have hnew3 : isNewCommand s2 (cmdHover "c") = true := by
    unfold isNewCommand
    rw [hcc2]
    rfl
  have hmode3 : (commandUpdate s2 (cmdHover "c") 2).current_mode = ControlMode.hover := by
    rw [(commandUpdate_new _ _ _ hnew3).1]
    rfl
  have t3 := executeCommand_hover_tick s2 (cmdHover "c")
    (hoverPerceptionAt ⟨10, 5, 0⟩) 2
    (benign_perception _ _ hmin2 hmax2 rfl) hem2 (Or.inl hmode3)
  obtain ⟨-, -, -, hht3, hpc3⟩ := t3
  rw [← hs3] at hht3 hpc3
  refine ⟨?_, ?_, ?_⟩
  · rw [hruneq, hht3, hht2v]
    rfl
  · rw [hruneq, hpc3, pidUpdate_prev, hht2v]
    show Vec3.sub ⟨0, 5, 0⟩ ⟨10, 5, 0⟩ = _
    norm_num [Vec3.sub, Vec3.mk.injEq]
  · intro h
    have := congrArg Vec3.x h
    norm_num at this

lemma triggerEmergency_hover_target (m : ControlModule) (r : EmergencyReason) :
    (triggerEmergency m r).hover_target = m.hover_target := by
  unfold triggerEmergency
  split <;> rfl

lemma checkEmergency_hover_target (m : ControlModule) (p : PerceptionState) :
    (checkEmergencyConditions m p).hover_target = m.hover_target := by
  unfold checkEmergencyConditions
  split
  · exact triggerEmergency_hover_target _ _
  · split
    · exact triggerEmergency_hover_target _ _
    · split
      · exact triggerEmergency_hover_target _ _
      · split
        · exact triggerEmergency_hover_target _ _
        · split <;> rfl

/-- `_execute_hover_control` either keeps the stored set-point or, when
none is stored yet, freezes the current position. -/
lemma executeHover_hover_target (m : ControlModule) (p : PerceptionState) (now : ℝ) :
    (executeHoverControl m p now).2.hover_target = m.hover_target ∨
    (m.hover_target = none ∧
      (executeHoverControl m p now).2.hover_target = some p.drone_position) := by
  obtain ⟨-, -, -, e4, -⟩ := executeHover_state m p now
  cases h : m.hover_target with
  | none =>
    right
    refine ⟨rfl, ?_⟩
    rw [e4, h]
    rfl
  | some t =>
    left
    rw [e4, h]
    rfl

lemma modeDispatch_hover_target (m : ControlModule) (c : ControlCommand)
    (p : PerceptionState) (now : ℝ) :
    (modeDispatch m c p now).2.hover_target = m.hover_target ∨
    (m.hover_target = none ∧
      (modeDispatch m c p now).2.hover_target = some p.drone_position) := by
  unfold modeDispatch
  split
  · exact Or.inl rfl
  · split
    · exact executeHover_hover_target _ _ _
    · unfold executeWaypointControl
      cases h : c.target_position with
      | none => exact executeHover_hover_target _ _ _
      | some t => exact Or.inl rfl
    · unfold executeInterceptControl
      cases h : p.target_position with
      | none => exact executeHover_hover_target _ _ _
      | some t => exact Or.inl rfl
    · exact Or.inl rfl
    · exact executeHover_hover_target _ _ _

/-- C6 (amended): the hover set-point is frozen at the FIRST tick on which
the hover law ever runs (not at each re-entry into hover): once
`hover_target` holds `t`, every later hover tick keeps `t` and feeds the
position PID the error `t − current position`; when it is still unset, the
hover law freezes the current position (giving a zero error that tick);
and no path of `execute_command` ever clears or re-freezes an existing
set-point — re-entering hover after flying elsewhere keeps the original
set-point rather than freezing a new one. -/
theorem C6_hover_setpoint (m : ControlModule) (p : PerceptionState) (now : ℝ) :
    (∀ t, m.hover_target = some t →
      (executeHoverControl m p now).2.hover_target = some t ∧
      (executeHoverControl m p now).2.position_controller.prev_error =
        t.sub p.drone_position) ∧
    (m.hover_target = none →
      (executeHoverControl m p now).2.hover_target = some p.drone_position ∧
      (executeHoverControl m p now).2.position_controller.prev_error =
        p.drone_position.sub p.drone_position) ∧
    (∀ c now2, (executeCommand m c p now2).2.hover_target = m.hover_target ∨
      (m.hover_target = none ∧
        (executeCommand m c p now2).2.hover_target = some p.drone_position)) := by
  obtain ⟨-, -, -, e4, e5⟩ := executeHover_state m p now
  refine ⟨?_, ?_, ?_⟩
  · intro t ht
    rw [e4, e5, ht]
    exact ⟨rfl, pidUpdate_prev _ _ _⟩
  · intro ht
    rw [e4, e5, ht]
    exact ⟨rfl, pidUpdate_prev _ _ _⟩
  · intro c now2
    rw [executeCommand_eq]
    dsimp only
    obtain ⟨-, -, -, l4, -⟩ := logControlAction_state
      (modeDispatch (checkEmergencyConditions (commandUpdate m c now2) p) c p now2).2 c p
      (applySafetyLimits
        (modeDispatch (checkEmergencyConditions (commandUpdate m c now2) p) c p now2).2
        (modeDispatch (checkEmergencyConditions (commandUpdate m c now2) p) c p now2).1 p)
      now2
    rw [l4]
    have hpre : (checkEmergencyConditions (commandUpdate m c now2) p).hover_target =
        m.hover_target := by
      rw [checkEmergency_hover_target, commandUpdate_hover_target]
    rcases modeDispatch_hover_target (checkEmergencyConditions (commandUpdate m c now2) p)
      c p now2 with hd | ⟨hd0, hd⟩
    · left
      rw [hd, hpre]
    · right
      rw [hpre] at hd0
      exact ⟨hd0, hd⟩

/-- A module whose hover set-point is already frozen at (1,2,3). -/
def hoverModule : ControlModule :=
  { ControlModule.init 0 with hover_target := some ⟨1, 2, 3⟩ }

/-- Witness for C6 (amended): with a stored set-point (1,2,3) and the
drone at (0,5,0), a hover tick keeps the set-point and feeds the PID the
error (1,2,3) − (0,5,0); with no stored set-point, the first hover tick
freezes (0,5,0). -/
theorem C6_hover_setpoint_witness :
    ((executeHoverControl hoverModule samplePerception 0).2.hover_target =
        some ⟨1, 2, 3⟩ ∧
      (executeHoverControl hoverModule samplePerception 0).2.position_controller.prev_error =
        Vec3.sub ⟨1, 2, 3⟩ samplePerception.drone_position) ∧
    ((executeHoverControl (ControlModule.init 0) samplePerception 0).2.hover_target =
        some samplePerception.drone_position) :=
  ⟨(C6_hover_setpoint hoverModule samplePerception 0).1 ⟨1, 2, 3⟩ rfl,
   ((C6_hover_setpoint (ControlModule.init 0) samplePerception 0).2.1 rfl).1⟩

/-! ## Claim C9 counterexample run -/

/-- The three-tick run refuting the reset-on-mode-change half of C9:
hover twice under one command id (accumulating a nonzero integral), then a
fresh waypoint command (a fresh mode entry) with zero position error. -/
def C9run : List (ControlCommand × PerceptionState × ℝ) :=
  [(cmdHover "a", hoverPerceptionAt ⟨0, 5, 0⟩, 0),
   (cmdHover "a", hoverPerceptionAt ⟨4, 5, 0⟩, 1),
   (cmdWaypointTo "b" ⟨4, 5, 0⟩, hoverPerceptionAt ⟨4, 5, 0⟩, 2)]

/-- C9 counterexample: entering waypoint mode fresh (command id "b" after
"a", mode hover → waypoint) does NOT reset the PID: the integral after the
mode-entry tick is (−1/50, 0, 0) — the value accumulated during hover —
although the error on the entry tick itself is zero, so a reset-on-entry
(as the claim states) would have left the integral at zero. -/
theorem C9_counterexample :
    (runControl (ControlModule.init 0) (C9run.take 2)).2.current_mode =
      ControlMode.hover ∧
    (runControl (ControlModule.init 0) C9run).2.current_mode = ControlMode.waypoint ∧
    (runControl (ControlModule.init 0) C9run).2.position_controller.integral =
      ⟨-1 / 50, 0, 0⟩ ∧
    Vec3.mk (-1 / 50) 0 0 ≠ Vec3.zero := by
  have htake : C9run.take 2 =
      [(cmdHover "a", hoverPerceptionAt ⟨0, 5, 0⟩, 0),
       (cmdHover "a", hoverPerceptionAt ⟨4, 5, 0⟩, 1)] := rfl
  have hruneq2 : (runControl (ControlModule.init 0) (C9run.take 2)).2 =
      (executeCommand
        (executeCommand (ControlModule.init 0) (cmdHover "a")
          (hoverPerceptionAt ⟨0, 5, 0⟩) 0).2
        (cmdHover "a") (hoverPerceptionAt ⟨4, 5, 0⟩) 1).2 := by
    rw [htake, runControl_state_cons, runControl_state_cons, runControl_state_nil]
  have hruneq : (runControl (ControlModule.init 0) C9run).2 =
      (executeCommand
        (executeCommand
          (executeCommand (ControlModule.init 0) (cmdHover "a")
            (hoverPerceptionAt ⟨0, 5, 0⟩) 0).2
          (cmdHover "a") (hoverPerceptionAt ⟨4, 5, 0⟩) 1).2
        (cmdWaypointTo "b" ⟨4, 5, 0⟩) (hoverPerceptionAt ⟨4, 5, 0⟩) 2).2 := by
    unfold C9run
    rw [runControl_state_cons, runControl_state_cons, runControl_state_cons,
      runControl_state_nil]
  set s1 := (executeCommand (ControlModule.init 0) (cmdHover "a")
    (hoverPerceptionAt ⟨0, 5, 0⟩) 0).2 with hs1
  set s2 := (executeCommand s1 (cmdHover "a") (hoverPerceptionAt ⟨4, 5, 0⟩) 1).2 with hs2
  set s3 := (executeCommand s2 (cmdWaypointTo "b" ⟨4, 5, 0⟩)
    (hoverPerceptionAt ⟨4, 5, 0⟩) 2).2 with hs3
  -- tick 1
  have hnew1 : isNewCommand (ControlModule.init 0) (cmdHover "a") = true := rfl
  have hmode1 : (commandUpdate (ControlModule.init 0) (cmdHover "a") 0).current_mode =
      ControlMode.hover := by
    rw [(commandUpdate_new _ _ _ hnew1).1]
    rfl
  have t1 := executeCommand_hover_tick (ControlModule.init 0) (cmdHover "a")
    (hoverPerceptionAt ⟨0, 5, 0⟩) 0
    (benign_perception _ _ (by norm_num [ControlModule.init])
      (by norm_num [ControlModule.init]) rfl)
    rfl (Or.inl hmode1)
  obtain ⟨hcc1, hmo1, hem1, hht1, hpc1⟩ := t1
  rw [commandUpdate_new_cc _ _ _ hnew1] at hcc1
  rw [hmode1] at hmo1
  rw [← hs1] at hcc1 hmo1 hem1 hht1 hpc1
  have hht1v : s1.hover_target = some ⟨0, 5, 0⟩ := by
    rw [hht1]
    rfl
  have hconst1 := executeCommand_constants (ControlModule.init 0) (cmdHover "a")
    (hoverPerceptionAt ⟨0, 5, 0⟩) 0
  rw [← hs1] at hconst1
  have hmin1 : s1.min_altitude = 1 := by
    rw [hconst1.2.2.2.1]
    norm_num [ControlModule.init]
  have hmax1 : s1.max_altitude = 100 := by
    rw [hconst1.2.2.2.2]
    norm_num [ControlModule.init]
  have hui1 : s1.update_interval = 1 / 200 := by
    rw [hconst1.1]
    rfl
  have hint1 : s1.position_controller.integral = ⟨0, 0, 0⟩ := by
    rw [hpc1, pidUpdate_integral_val]
    show Vec3.add Vec3.zero (Vec3.smul (1 / 200) (Vec3.sub ⟨0, 5, 0⟩ ⟨0, 5, 0⟩)) = _
    norm_num [Vec3.add, Vec3.smul, Vec3.sub, Vec3.zero, Vec3.mk.injEq]
  -- tick 2 (same command id: no command update)
  have hnew2 : isNewCommand s1 (cmdHover "a") = false := by
    unfold isNewCommand
    rw [hcc1]
    rfl
  have hcu2 : commandUpdate s1 (cmdHover "a") 1 = s1 := commandUpdate_old _ _ _ hnew2
  have t2 := executeCommand_hover_tick s1 (cmdHover "a") (hoverPerceptionAt ⟨4, 5, 0⟩) 1
    (benign_perception _ _ hmin1 hmax1 rfl) hem1
    (Or.inl (by rw [hcu2]; exact hmo1))
  obtain ⟨hcc2, hmo2, hem2, hht2, hpc2⟩ := t2
  rw [hcu2] at hcc2 hmo2
  rw [hcc1] at hcc2
  rw [hmo1] at hmo2
  rw [← hs2] at hcc2 hmo2 hem2 hht2 hpc2
  have hht2v : s2.hover_target = some ⟨0, 5, 0⟩ := by
    rw [hht2, hht1v]
    rfl
  have hconst2 := executeCommand_constants s1 (cmdHover "a") (hoverPerceptionAt ⟨4, 5, 0⟩) 1
  rw [← hs2] at hconst2
  have hmin2 : s2.min_altitude = 1 := by
    rw [hconst2.2.2.2.1]
    exact hmin1
  have hmax2 : s2.max_altitude = 100 := by
    rw [hconst2.2.2.2.2]
    exact hmax1
  have hui2 : s2.update_interval = 1 / 200 := by
    rw [hconst2.1]
    exact hui1
  have hint2 : s2.position_controller.integral = ⟨-1 / 50, 0, 0⟩ := by
    rw [hpc2, pidUpdate_integral_val, hint1, hht1v, hui1]
    show Vec3.add ⟨0, 0, 0⟩
      (Vec3.smul (1 / 200) (Vec3.sub ⟨0, 5, 0⟩ ⟨4, 5, 0⟩)) = _
    norm_num [Vec3.add, Vec3.smul, Vec3.sub, Vec3.mk.injEq]
  -- tick 3 (fresh command id, fresh mode entry hover → waypoint)
  have hnew3 : isNewCommand s2 (cmdWaypointTo "b" ⟨4, 5, 0⟩) = true := by
    unfold isNewCommand
    rw [hcc2]
    rfl
  have hmode3 : (commandUpdate s2 (cmdWaypointTo "b" ⟨4, 5, 0⟩) 2).current_mode =
      ControlMode.waypoint := by
    rw [(commandUpdate_new _ _ _ hnew3).1]
    rfl
  have t3 := executeCommand_waypoint_tick s2 (cmdWaypointTo "b" ⟨4, 5, 0⟩)
    (hoverPerceptionAt ⟨4, 5, 0⟩) 2 ⟨4, 5, 0⟩
    (benign_perception _ _ hmin2 hmax2 rfl) hem2 hmode3 rfl
  obtain ⟨-, hmo3, -, -, hpc3⟩ := t3
  rw [← hs3] at hmo3 hpc3
  refine ⟨?_, ?_, ?_, ?_⟩
  · rw [hruneq2]
    exact hmo2
  · rw [hruneq]
    exact hmo3
  · rw [hruneq, hpc3, pidUpdate_integral_val, hint2, hui2]
    show Vec3.add ⟨-1 / 50, 0, 0⟩
      (Vec3.smul (1 / 200) (Vec3.sub ⟨4, 5, 0⟩ ⟨4, 5, 0⟩)) = _
    norm_num [Vec3.add, Vec3.smul, Vec3.sub, Vec3.mk.injEq]
  · intro h
    have := congrArg Vec3.x h
    norm_num [Vec3.zero] at this

/-! ## Claim C8: intercept-time computation -/

/-- The quadratic coefficient `a = |v_target|² − speed²` (speed 10). -/
def interceptA (target_vel : Vec3) : ℝ :=
  Vec3.dot target_vel target_vel - (10.0 : ℝ) ^ 2

/-- The quadratic coefficient `b = 2·(Δp·v_target)`. -/
def interceptB (drone_pos target_pos target_vel : Vec3) : ℝ :=
  2 * Vec3.dot (target_pos.sub drone_pos) target_vel

/-- The quadratic coefficient `c = |Δp|²`. -/
def interceptC (drone_pos target_pos : Vec3) : ℝ :=
  Vec3.dot (target_pos.sub drone_pos) (target_pos.sub drone_pos)

/-- The discriminant `b² − 4ac`. -/
def interceptDisc (drone_pos target_pos target_vel : Vec3) : ℝ :=
  interceptB drone_pos target_pos target_vel ^ 2 -
    4 * interceptA target_vel * interceptC drone_pos target_pos

/-- The root `(−b + √disc)/(2a)` the code prefers when positive. -/
def interceptT1 (drone_pos target_pos target_vel : Vec3) : ℝ :=
  (-interceptB drone_pos target_pos target_vel +
    Real.sqrt (interceptDisc drone_pos target_pos target_vel)) /
    (2 * interceptA target_vel)

/-- The root `(−b − √disc)/(2a)` the code falls back to. -/
def interceptT2 (drone_pos target_pos target_vel : Vec3) : ℝ :=
  (-interceptB drone_pos target_pos target_vel -
    Real.sqrt (interceptDisc drone_pos target_pos target_vel)) /
    (2 * interceptA target_vel)

/-- `_calculate_intercept_time` expressed through the named coefficients. -/
lemma calculateInterceptTime_eq (drone_pos target_pos target_vel : Vec3) :
    calculateInterceptTime drone_pos target_pos target_vel =
      if interceptDisc drone_pos target_pos target_vel < 0 ∨
          |interceptA target_vel| < 0.001 then
        (target_pos.sub drone_pos).norm / 10.0
      else
        max 0.1
          (if 0 < interceptT1 drone_pos target_pos target_vel then
            interceptT1 drone_pos target_pos target_vel
          else interceptT2 drone_pos target_pos target_vel) := by
  unfold calculateInterceptTime interceptT1 interceptT2 interceptDisc interceptA
    interceptB interceptC
  rfl

/-- C8 counterexample: drone at the origin, target at (10,0,0) closing at
(−20,0,0).  Both roots are positive (t₂ = 1/3 < t₁ = 1); the code returns
t₁ = 1, not the smaller positive root 1/3 (which solves the quadratic and
is positive). -/
theorem C8_counterexample :
    calculateInterceptTime ⟨0, 0, 0⟩ ⟨10, 0, 0⟩ ⟨-20, 0, 0⟩ = 1 ∧
    interceptA ⟨-20, 0, 0⟩ * (1 / 3 : ℝ) ^ 2 +
      interceptB ⟨0, 0, 0⟩ ⟨10, 0, 0⟩ ⟨-20, 0, 0⟩ * (1 / 3) +
      interceptC ⟨0, 0, 0⟩ ⟨10, 0, 0⟩ = 0 ∧
    (0 : ℝ) < 1 / 3 ∧ (1 / 3 : ℝ) < 1 ∧ (1 : ℝ) ≠ 1 / 3 := by
  have hdisc : interceptDisc ⟨0, 0, 0⟩ ⟨10, 0, 0⟩ ⟨-20, 0, 0⟩ = 40000 := by
    norm_num [interceptDisc, interceptA, interceptB, interceptC, Vec3.dot, Vec3.sub]
  have hsq : Real.sqrt 40000 = 200 := by
    rw [show (40000 : ℝ) = 200 ^ 2 by norm_num, Real.sqrt_sq (by norm_num)]
  have ht1 : interceptT1 ⟨0, 0, 0⟩ ⟨10, 0, 0⟩ ⟨-20, 0, 0⟩ = 1 := by
    rw [interceptT1, hdisc, hsq]
    norm_num [interceptA, interceptB, Vec3.dot, Vec3.sub]
  refine ⟨?_, ?_, by norm_num, by norm_num, by norm_num⟩
  · rw [calculateInterceptTime_eq, if_neg, ht1]
    · rw [if_pos (by norm_num)]
      rw [max_eq_right (by norm_num)]
    · rw [hdisc]
      norm_num [interceptA, Vec3.dot]
  · norm_num [interceptA, interceptB, interceptC, Vec3.dot, Vec3.sub]

/-- C8 (amended): the computation solves
`(|v_target|² − speed²)·t² + 2·(Δp·v_target)·t + |Δp|² = 0` with speed 10,
but returns `max(0.1, t)` where `t` is the root `(−b+√disc)/(2a)` whenever
that root is positive, else the root `(−b−√disc)/(2a)` — when both roots
are positive (only possible for a target faster than the drone) this is
the LARGER positive root, not the smaller one; when the discriminant is
negative or `|a| < 0.001` it falls back to `|Δp|/speed`.  Both selected
values are genuine roots of the quadratic.  For a drone at the origin and
a stationary target at distance 10 the result is exactly 1.0 s and the aim
point `target_pos + v_target·t` is the target position itself. -/
theorem C8_intercept_time (drone_pos target_pos target_vel : Vec3) :
    (¬ (interceptDisc drone_pos target_pos target_vel < 0 ∨
        |interceptA target_vel| < 0.001) →
      calculateInterceptTime drone_pos target_pos target_vel =
        max 0.1
          (if 0 < interceptT1 drone_pos target_pos target_vel then
            interceptT1 drone_pos target_pos target_vel
          else interceptT2 drone_pos target_pos target_vel) ∧
      interceptA target_vel * interceptT1 drone_pos target_pos target_vel ^ 2 +
        interceptB drone_pos target_pos target_vel *
          interceptT1 drone_pos target_pos target_vel +
        interceptC drone_pos target_pos = 0 ∧
      interceptA target_vel * interceptT2 drone_pos target_pos target_vel ^ 2 +
        interceptB drone_pos target_pos target_vel *
          interceptT2 drone_pos target_pos target_vel +
        interceptC drone_pos target_pos = 0) ∧
    ((interceptDisc drone_pos target_pos target_vel < 0 ∨
        |interceptA target_vel| < 0.001) →
      calculateInterceptTime drone_pos target_pos target_vel =
        (target_pos.sub drone_pos).norm / 10.0) ∧
    calculateInterceptTime ⟨0, 0, 0⟩ ⟨10, 0, 0⟩ ⟨0, 0, 0⟩ = 1 ∧
    Vec3.add ⟨10, 0, 0⟩
      (Vec3.smul (calculateInterceptTime ⟨0, 0, 0⟩ ⟨10, 0, 0⟩ ⟨0, 0, 0⟩) ⟨0, 0, 0⟩) =
      ⟨10, 0, 0⟩ := by
  have hstat : calculateInterceptTime ⟨0, 0, 0⟩ ⟨10, 0, 0⟩ ⟨0, 0, 0⟩ = 1 := by
    have hdisc : interceptDisc ⟨0, 0, 0⟩ ⟨10, 0, 0⟩ ⟨0, 0, 0⟩ = 40000 := by
      norm_num [interceptDisc, interceptA, interceptB, interceptC, Vec3.dot, Vec3.sub]
    have hsq : Real.sqrt 40000 = 200 := by
      rw [show (40000 : ℝ) = 200 ^ 2 by norm_num, Real.sqrt_sq (by norm_num)]
    have ht1 : interceptT1 ⟨0, 0, 0⟩ ⟨10, 0, 0⟩ ⟨0, 0, 0⟩ = -1 := by
      rw [interceptT1, hdisc, hsq]
      norm_num [interceptA, interceptB, Vec3.dot, Vec3.sub]
    have ht2 : interceptT2 ⟨0, 0, 0⟩ ⟨10, 0, 0⟩ ⟨0, 0, 0⟩ = 1 := by
      rw [interceptT2, hdisc, hsq]
      norm_num [interceptA, interceptB, Vec3.dot, Vec3.sub]
    rw [calculateInterceptTime_eq, if_neg, ht1, ht2]
    · rw [if_neg (by norm_num)]
      rw [max_eq_right (by norm_num)]
    · rw [hdisc]
      norm_num [interceptA, Vec3.dot]
  refine ⟨?_, ?_, hstat, ?_⟩
  · intro h
    push_neg at h
    obtain ⟨hd, ha⟩ := h
    have hd0 : 0 ≤ interceptDisc drone_pos target_pos target_vel := hd
    have ha0 : interceptA target_vel ≠ 0 := by
      intro h0
      rw [h0] at ha
      norm_num at ha
    have hs : Real.sqrt (interceptDisc drone_pos target_pos target_vel) ^ 2 =
        interceptDisc drone_pos target_pos target_vel := Real.sq_sqrt hd0
    refine ⟨?_, ?_, ?_⟩
    · rw [calculateInterceptTime_eq, if_neg (by push_neg; exact ⟨hd, ha⟩)]
    · unfold interceptT1
      field_simp
      nlinarith [hs, sq_nonneg (Real.sqrt (interceptDisc drone_pos target_pos target_vel)),
        interceptDisc.eq_1 drone_pos target_pos target_vel]
    · unfold interceptT2
      field_simp
      nlinarith [hs, sq_nonneg (Real.sqrt (interceptDisc drone_pos target_pos target_vel)),
        interceptDisc.eq_1 drone_pos target_pos target_vel]
  · intro h
    rw [calculateInterceptTime_eq, if_pos h]
  · rw [hstat]
    norm_num [Vec3.add, Vec3.smul, Vec3.mk.injEq]

/-- Witness for C8 (amended): a fast head-on target exercises the root
branch (both candidate values are roots of the quadratic), and a target
matching the drone's speed exercises the `|Δp|/speed` fallback. -/
theorem C8_intercept_time_witness :
    (calculateInterceptTime ⟨0, 0, 0⟩ ⟨10, 0, 0⟩ ⟨-20, 0, 0⟩ =
        max 0.1
          (if 0 < interceptT1 ⟨0, 0, 0⟩ ⟨10, 0, 0⟩ ⟨-20, 0, 0⟩ then
            interceptT1 ⟨0, 0, 0⟩ ⟨10, 0, 0⟩ ⟨-20, 0, 0⟩
          else interceptT2 ⟨0, 0, 0⟩ ⟨10, 0, 0⟩ ⟨-20, 0, 0⟩) ∧
      interceptA ⟨-20, 0, 0⟩ * interceptT1 ⟨0, 0, 0⟩ ⟨10, 0, 0⟩ ⟨-20, 0, 0⟩ ^ 2 +
        interceptB ⟨0, 0, 0⟩ ⟨10, 0, 0⟩ ⟨-20, 0, 0⟩ *
          interceptT1 ⟨0, 0, 0⟩ ⟨10, 0, 0⟩ ⟨-20, 0, 0⟩ +
        interceptC ⟨0, 0, 0⟩ ⟨10, 0, 0⟩ = 0 ∧
      interceptA ⟨-20, 0, 0⟩ * interceptT2 ⟨0, 0, 0⟩ ⟨10, 0, 0⟩ ⟨-20, 0, 0⟩ ^ 2 +
        interceptB ⟨0, 0, 0⟩ ⟨10, 0, 0⟩ ⟨-20, 0, 0⟩ *
          interceptT2 ⟨0, 0, 0⟩ ⟨10, 0, 0⟩ ⟨-20, 0, 0⟩ +
        interceptC ⟨0, 0, 0⟩ ⟨10, 0, 0⟩ = 0) ∧
    calculateInterceptTime ⟨0, 0, 0⟩ ⟨10, 0, 0⟩ ⟨10, 0, 0⟩ =
      (Vec3.sub ⟨10, 0, 0⟩ ⟨0, 0, 0⟩).norm / 10.0 :=
  ⟨(C8_intercept_time ⟨0, 0, 0⟩ ⟨10, 0, 0⟩ ⟨-20, 0, 0⟩).1
      (by norm_num [interceptDisc, interceptA, interceptB, interceptC, Vec3.dot, Vec3.sub]),
   (C8_intercept_time ⟨0, 0, 0⟩ ⟨10, 0, 0⟩ ⟨10, 0, 0⟩).2.1
      (Or.inr (by norm_num [interceptA, Vec3.dot]))⟩

/-! ## Claims C3 and C4: threat analysis and ordering -/

/-- Evaluate a `Vec3` norm from a sum-of-squares identity. -/
lemma norm_eval (a b c r : ℝ) (h : a * a + b * b + c * c = r ^ 2) (hr : 0 ≤ r) :
    Vec3.norm ⟨a, b, c⟩ = r := by
  unfold Vec3.norm Vec3.dot
  rw [h, Real.sqrt_sq hr]

/-- In the moving-obstacle branch, the threat record's closest distance and
time-to-collision fields. -/
lemma analyze_moving (pm : PerceptionModule) (d v : Vec3) (o : Obstacle)
    (hrv : ¬ ((Vec3.sub o.velD v).norm < 0.001)) :
    (analyzeCollisionRisk pm d v o).closest_distance =
      (Vec3.add (Vec3.sub o.posD d)
        (Vec3.smul
          (max 0 (-(Vec3.dot (Vec3.sub o.posD d) (Vec3.sub o.velD v)) /
            Vec3.dot (Vec3.sub o.velD v) (Vec3.sub o.velD v)))
          (Vec3.sub o.velD v))).norm ∧
    (analyzeCollisionRisk pm d v o).time_to_collision =
      (if (Vec3.add (Vec3.sub o.posD d)
            (Vec3.smul
              (max 0 (-(Vec3.dot (Vec3.sub o.posD d) (Vec3.sub o.velD v)) /
                Vec3.dot (Vec3.sub o.velD v) (Vec3.sub o.velD v)))
              (Vec3.sub o.velD v))).norm < o.sizeD.maxComp then
        some (max 0 (-(Vec3.dot (Vec3.sub o.posD d) (Vec3.sub o.velD v)) /
          Vec3.dot (Vec3.sub o.velD v) (Vec3.sub o.velD v)))
      else none) := by
  unfold analyzeCollisionRisk
  dsimp only
  rw [if_neg hrv]
  exact ⟨rfl, rfl⟩

/-- `is_threat` of the record built for a moving obstacle, with the default
constants: the `min_safe_distance` margin is subsumed, so inclusion is
exactly `closest distance < max(size)` together with `t* < 2`. -/
lemma is_threat_iff (d v : Vec3) (o : Obstacle)
    (hrv : ¬ ((Vec3.sub o.velD v).norm < 0.001)) :
    ((analyzeCollisionRisk PerceptionModule.init d v o).is_threat = true ↔
      (Vec3.add (Vec3.sub o.posD d)
        (Vec3.smul
          (max 0 (-(Vec3.dot (Vec3.sub o.posD d) (Vec3.sub o.velD v)) /
            Vec3.dot (Vec3.sub o.velD v) (Vec3.sub o.velD v)))
          (Vec3.sub o.velD v))).norm < o.sizeD.maxComp ∧
      max 0 (-(Vec3.dot (Vec3.sub o.posD d) (Vec3.sub o.velD v)) /
        Vec3.dot (Vec3.sub o.velD v) (Vec3.sub o.velD v)) < 2) := by
  unfold analyzeCollisionRisk PerceptionModule.init
  dsimp only
  rw [if_neg hrv]
  by_cases h : (Vec3.add (Vec3.sub o.posD d)
      (Vec3.smul
        (max 0 (-(Vec3.dot (Vec3.sub o.posD d) (Vec3.sub o.velD v)) /
          Vec3.dot (Vec3.sub o.velD v) (Vec3.sub o.velD v)))
        (Vec3.sub o.velD v))).norm < o.sizeD.maxComp
  · rw [if_pos h]
    unfold ttcLtBound
    simp only [Bool.and_eq_true, decide_eq_true_iff]
    constructor
    · rintro ⟨-, h2⟩
      refine ⟨h, by linarith⟩
    · rintro ⟨-, h2⟩
      constructor
      · norm_num
        linarith
      · linarith
  · rw [if_neg h]
    unfold ttcLtBound
    simp only [Bool.and_false, Bool.false_eq_true, false_iff]
    rintro ⟨h1, -⟩
    exact h h1

/-- Everything in the detected-threat list passed the `is_threat` filter. -/
lemma mem_detect_is_threat (pm : PerceptionModule) (d v : Vec3)
    (obstacles : List Obstacle) (t : Threat)
    (ht : t ∈ detectImmediateThreats pm d v obstacles) : t.is_threat = true := by
  unfold detectImmediateThreats at ht
  rw [(List.mergeSort_perm _ _).mem_iff, List.mem_filter] at ht
  exact ht.2

/-- Membership of an obstacle's record in the threat list is exactly its
`is_threat` flag. -/
lemma mem_detect_iff (pm : PerceptionModule) (d v : Vec3) (obstacles : List Obstacle)
    (o : Obstacle) (ho : o ∈ obstacles) :
    analyzeCollisionRisk pm d v o ∈ detectImmediateThreats pm d v obstacles ↔
      (analyzeCollisionRisk pm d v o).is_threat = true := by
  unfold detectImmediateThreats
  rw [(List.mergeSort_perm _ _).mem_iff, List.mem_filter]
  constructor
  · rintro ⟨-, h⟩
    exact h
  · intro h
    exact ⟨List.mem_map_of_mem _ ho, h⟩

/-- C3 (amended): for the default constants, an obstacle with relative
speed at least 0.001 appears in the threat list iff its closest-approach
distance `|rp + rv·t*|` (with `t* = max(0, −(rp·rv)/(rv·rv))`) is below
`max(size)` — not below `max(size) + min_safe_distance` as the claim
states — and `t* < 2.0`: the code's stored time-to-collision is `t*` only
when the closest distance is below `max(size)` and infinite otherwise, so
the `min_safe_distance` margin never widens inclusion.  An obstacle with
relative speed below 0.001 has infinite time-to-collision and closest
distance `|rp|`, and is never included (that part of the claim holds). -/
theorem C3_threat_inclusion (d v : Vec3) (obstacles : List Obstacle) (o : Obstacle)
    (ho : o ∈ obstacles) :
    (0.001 ≤ (Vec3.sub o.velD v).norm →
      (analyzeCollisionRisk PerceptionModule.init d v o ∈
          detectImmediateThreats PerceptionModule.init d v obstacles ↔
        (Vec3.add (Vec3.sub o.posD d)
          (Vec3.smul
            (max 0 (-(Vec3.dot (Vec3.sub o.posD d) (Vec3.sub o.velD v)) /
              Vec3.dot (Vec3.sub o.velD v) (Vec3.sub o.velD v)))
            (Vec3.sub o.velD v))).norm < o.sizeD.maxComp ∧
        max 0 (-(Vec3.dot (Vec3.sub o.posD d) (Vec3.sub o.velD v)) /
          Vec3.dot (Vec3.sub o.velD v) (Vec3.sub o.velD v)) < 2)) ∧
    ((Vec3.sub o.velD v).norm < 0.001 →
      analyzeCollisionRisk PerceptionModule.init d v o ∉
        detectImmediateThreats PerceptionModule.init d v obstacles ∧
      (analyzeCollisionRisk PerceptionModule.init d v o).time_to_collision = none ∧
      (analyzeCollisionRisk PerceptionModule.init d v o).closest_distance =
        (Vec3.sub o.posD d).norm) := by
  constructor
  · intro hrv
    rw [mem_detect_iff PerceptionModule.init d v obstacles o ho]
    exact is_threat_iff d v o (not_lt.mpr hrv)
  · intro hrv
    have hslow : (analyzeCollisionRisk PerceptionModule.init d v o).is_threat = false ∧
        (analyzeCollisionRisk PerceptionModule.init d v o).time_to_collision = none ∧
        (analyzeCollisionRisk PerceptionModule.init d v o).closest_distance =
          (Vec3.sub o.posD d).norm := by
      unfold analyzeCollisionRisk
      dsimp only
      rw [if_pos hrv]
      refine ⟨?_, rfl, rfl⟩
      unfold ttcLtBound
      simp
    refine ⟨?_, hslow.2.1, hslow.2.2⟩
    intro hmem
    rw [mem_detect_iff PerceptionModule.init d v obstacles o ho] at hmem
    rw [hslow.1] at hmem
    exact Bool.false_ne_true hmem

/-- An obstacle at (2,0,0) approaching at (−2,0,0): t* = 1 s, closest
distance 0, included as a threat with time-to-collision 1.0 s. -/
def obsO1 : Obstacle := ⟨some ⟨2, 0, 0⟩, some ⟨1, 1, 1⟩, some ⟨-2, 0, 0⟩⟩

/-- An obstacle at (6,0,0) approaching at (−2,0,0): t* = 3 s, closest
distance 0, time-to-collision 3.0 s, excluded (beyond the 2 s horizon). -/
def obsO2 : Obstacle := ⟨some ⟨6, 0, 0⟩, some ⟨1, 1, 1⟩, some ⟨-2, 0, 0⟩⟩

lemma obsO1_tstar :
    max 0 (-(Vec3.dot (Vec3.sub obsO1.posD ⟨0, 0, 0⟩) (Vec3.sub obsO1.velD ⟨0, 0, 0⟩)) /
      Vec3.dot (Vec3.sub obsO1.velD ⟨0, 0, 0⟩) (Vec3.sub obsO1.velD ⟨0, 0, 0⟩)) = 1 := by
  norm_num [obsO1, Obstacle.posD, Obstacle.velD, Vec3.dot, Vec3.sub]

lemma obsO1_rv_norm : (Vec3.sub obsO1.velD ⟨0, 0, 0⟩).norm = 2 := by
  show Vec3.norm ⟨-2 - 0, 0 - 0, 0 - 0⟩ = 2
  norm_num
  exact norm_eval _ _ _ 2 (by norm_num) (by norm_num)

lemma obsO1_closest :
    (Vec3.add (Vec3.sub obsO1.posD ⟨0, 0, 0⟩)
      (Vec3.smul
        (max 0 (-(Vec3.dot (Vec3.sub obsO1.posD ⟨0, 0, 0⟩) (Vec3.sub obsO1.velD ⟨0, 0, 0⟩)) /
          Vec3.dot (Vec3.sub obsO1.velD ⟨0, 0, 0⟩) (Vec3.sub obsO1.velD ⟨0, 0, 0⟩)))
        (Vec3.sub obsO1.velD ⟨0, 0, 0⟩))).norm = 0 := by
  rw [obsO1_tstar]
  show Vec3.norm (Vec3.add (Vec3.sub ⟨2, 0, 0⟩ ⟨0, 0, 0⟩)
    (Vec3.smul 1 (Vec3.sub ⟨-2, 0, 0⟩ ⟨0, 0, 0⟩))) = 0
  simp only [Vec3.sub, Vec3.add, Vec3.smul]
  norm_num
  exact norm_eval _ _ _ 0 (by norm_num) (by norm_num)

/-- Witness for C3 (amended): the obstacle `obsO1` (closest distance 0
below its size 1, t* = 1 below the horizon) is included. -/
theorem C3_threat_inclusion_witness :
    analyzeCollisionRisk PerceptionModule.init ⟨0, 0, 0⟩ ⟨0, 0, 0⟩ obsO1 ∈
      detectImmediateThreats PerceptionModule.init ⟨0, 0, 0⟩ ⟨0, 0, 0⟩ [obsO1] := by
  refine ((C3_threat_inclusion ⟨0, 0, 0⟩ ⟨0, 0, 0⟩ [obsO1] obsO1 (by simp)).1
    (by rw [obsO1_rv_norm]; norm_num)).mpr ⟨?_, ?_⟩
  · rw [obsO1_closest]
    norm_num [obsO1, Obstacle.sizeD, Vec3.maxComp]
  · rw [obsO1_tstar]
    norm_num

/-- The obstacle used by the C3 counterexample: at (2,2,0) moving at
(−2,0,0): t* = 1, closest distance 2, within the spec's margin
`max(size) + 3 = 4` and horizon, yet excluded by the code because
2 ≥ max(size) = 1 makes the stored time-to-collision infinite. -/
def obsC3 : Obstacle := ⟨some ⟨2, 2, 0⟩, some ⟨1, 1, 1⟩, some ⟨-2, 0, 0⟩⟩

lemma obsC3_tstar :
    max 0 (-(Vec3.dot (Vec3.sub obsC3.posD ⟨0, 0, 0⟩) (Vec3.sub obsC3.velD ⟨0, 0, 0⟩)) /
      Vec3.dot (Vec3.sub obsC3.velD ⟨0, 0, 0⟩) (Vec3.sub obsC3.velD ⟨0, 0, 0⟩)) = 1 := by
  norm_num [obsC3, Obstacle.posD, Obstacle.velD, Vec3.dot, Vec3.sub]

lemma obsC3_closest :
    (Vec3.add (Vec3.sub obsC3.posD ⟨0, 0, 0⟩)
      (Vec3.smul
        (max 0 (-(Vec3.dot (Vec3.sub obsC3.posD ⟨0, 0, 0⟩) (Vec3.sub obsC3.velD ⟨0, 0, 0⟩)) /
          Vec3.dot (Vec3.sub obsC3.velD ⟨0, 0, 0⟩) (Vec3.sub obsC3.velD ⟨0, 0, 0⟩)))
        (Vec3.sub obsC3.velD ⟨0, 0, 0⟩))).norm = 2 := by
  rw [obsC3_tstar]
  show Vec3.norm (Vec3.add (Vec3.sub ⟨2, 2, 0⟩ ⟨0, 0, 0⟩)
    (Vec3.smul 1 (Vec3.sub ⟨-2, 0, 0⟩ ⟨0, 0, 0⟩))) = 2
  simp only [Vec3.sub, Vec3.add, Vec3.smul]
  norm_num
  exact norm_eval _ _ _ 2 (by norm_num) (by norm_num)

/-- C3 counterexample: `obsC3` satisfies the claim's inclusion condition —
relative speed 2 ≥ 0.001, closest-approach distance 2 below
`max(size) + min_safe_distance = 4`, and t* = 1 below the 2 s horizon —
yet the threat list for it is empty. -/
theorem C3_counterexample :
    (0.001 : ℝ) ≤ 2 ∧ (Vec3.sub obsC3.velD ⟨0, 0, 0⟩).norm = 2 ∧
    (Vec3.add (Vec3.sub obsC3.posD ⟨0, 0, 0⟩)
      (Vec3.smul
        (max 0 (-(Vec3.dot (Vec3.sub obsC3.posD ⟨0, 0, 0⟩) (Vec3.sub obsC3.velD ⟨0, 0, 0⟩)) /
          Vec3.dot (Vec3.sub obsC3.velD ⟨0, 0, 0⟩) (Vec3.sub obsC3.velD ⟨0, 0, 0⟩)))
        (Vec3.sub obsC3.velD ⟨0, 0, 0⟩))).norm = 2 ∧
    (2 : ℝ) < obsC3.sizeD.maxComp + 3 ∧
    max 0 (-(Vec3.dot (Vec3.sub obsC3.posD ⟨0, 0, 0⟩) (Vec3.sub obsC3.velD ⟨0, 0, 0⟩)) /
      Vec3.dot (Vec3.sub obsC3.velD ⟨0, 0, 0⟩) (Vec3.sub obsC3.velD ⟨0, 0, 0⟩)) = 1 ∧
    (1 : ℝ) < 2 ∧
    detectImmediateThreats PerceptionModule.init ⟨0, 0, 0⟩ ⟨0, 0, 0⟩ [obsC3] = [] := by
  have hrvn : (Vec3.sub obsC3.velD ⟨0, 0, 0⟩).norm = 2 := by
    show Vec3.norm ⟨-2 - 0, 0 - 0, 0 - 0⟩ = 2
    norm_num
    exact norm_eval _ _ _ 2 (by norm_num) (by norm_num)
  have hnotthreat : (analyzeCollisionRisk PerceptionModule.init ⟨0, 0, 0⟩ ⟨0, 0, 0⟩
      obsC3).is_threat = false := by
    have hiff := is_threat_iff ⟨0, 0, 0⟩ ⟨0, 0, 0⟩ obsC3 (by rw [hrvn]; norm_num)
    rcases Bool.eq_false_or_eq_true (analyzeCollisionRisk PerceptionModule.init
      ⟨0, 0, 0⟩ ⟨0, 0, 0⟩ obsC3).is_threat with ht | hf
    · exfalso
      have := hiff.mp ht
      rw [obsC3_closest] at this
      have h2 : (2 : ℝ) < obsC3.sizeD.maxComp := this.1
      norm_num [obsC3, Obstacle.sizeD, Vec3.maxComp] at h2
    · exact hf
  refine ⟨by norm_num, hrvn, obsC3_closest, ?_, obsC3_tstar, by norm_num, ?_⟩
  · norm_num [obsC3, Obstacle.sizeD, Vec3.maxComp]
  · unfold detectImmediateThreats
    rw [show ([obsC3].map (analyzeCollisionRisk PerceptionModule.init ⟨0, 0, 0⟩ ⟨0, 0, 0⟩)) =
      [analyzeCollisionRisk PerceptionModule.init ⟨0, 0, 0⟩ ⟨0, 0, 0⟩ obsC3] from rfl]
    rw [List.filter_cons, if_neg (by rw [hnotthreat]; exact Bool.false_ne_true)]
    simp [List.mergeSort_nil]

lemma ttcLE_trans (a b c : Option ℝ) (h1 : ttcLE a b = true) (h2 : ttcLE b c = true) :
    ttcLE a c = true := by
  cases a <;> cases b <;> cases c <;> simp_all [ttcLE]
  linarith

lemma ttcLE_total (a b : Option ℝ) : (ttcLE a b || ttcLE b a) = true := by
  cases a <;> cases b <;> simp_all [ttcLE]
  exact le_total _ _

lemma obsO2_tstar :
    max 0 (-(Vec3.dot (Vec3.sub obsO2.posD ⟨0, 0, 0⟩) (Vec3.sub obsO2.velD ⟨0, 0, 0⟩)) /
      Vec3.dot (Vec3.sub obsO2.velD ⟨0, 0, 0⟩) (Vec3.sub obsO2.velD ⟨0, 0, 0⟩)) = 3 := by
  norm_num [obsO2, Obstacle.posD, Obstacle.velD, Vec3.dot, Vec3.sub]

lemma obsO2_rv_norm : (Vec3.sub obsO2.velD ⟨0, 0, 0⟩).norm = 2 := by
  show Vec3.norm ⟨-2 - 0, 0 - 0, 0 - 0⟩ = 2
  norm_num
  exact norm_eval _ _ _ 2 (by norm_num) (by norm_num)

lemma obsO2_closest :
    (Vec3.add (Vec3.sub obsO2.posD ⟨0, 0, 0⟩)
      (Vec3.smul
        (max 0 (-(Vec3.dot (Vec3.sub obsO2.posD ⟨0, 0, 0⟩) (Vec3.sub obsO2.velD ⟨0, 0, 0⟩)) /
          Vec3.dot (Vec3.sub obsO2.velD ⟨0, 0, 0⟩) (Vec3.sub obsO2.velD ⟨0, 0, 0⟩)))
        (Vec3.sub obsO2.velD ⟨0, 0, 0⟩))).norm = 0 := by
  rw [obsO2_tstar]
  show Vec3.norm (Vec3.add (Vec3.sub ⟨6, 0, 0⟩ ⟨0, 0, 0⟩)
    (Vec3.smul 3 (Vec3.sub ⟨-2, 0, 0⟩ ⟨0, 0, 0⟩))) = 0
  simp only [Vec3.sub, Vec3.add, Vec3.smul]
  norm_num
  exact norm_eval _ _ _ 0 (by norm_num) (by norm_num)

lemma analyzeO1_ttc :
    (analyzeCollisionRisk PerceptionModule.init ⟨0, 0, 0⟩ ⟨0, 0, 0⟩
      obsO1).time_to_collision = some 1 := by
  have h := (analyze_moving PerceptionModule.init ⟨0, 0, 0⟩ ⟨0, 0, 0⟩ obsO1
    (by rw [obsO1_rv_norm]; norm_num)).2
  rw [h, obsO1_closest, if_pos (by norm_num [obsO1, Obstacle.sizeD, Vec3.maxComp]),
    obsO1_tstar]

lemma analyzeO2_ttc :
    (analyzeCollisionRisk PerceptionModule.init ⟨0, 0, 0⟩ ⟨0, 0, 0⟩
      obsO2).time_to_collision = some 3 := by
  have h := (analyze_moving PerceptionModule.init ⟨0, 0, 0⟩ ⟨0, 0, 0⟩ obsO2
    (by rw [obsO2_rv_norm]; norm_num)).2
  rw [h, obsO2_closest, if_pos (by norm_num [obsO2, Obstacle.sizeD, Vec3.maxComp]),
    obsO2_tstar]

lemma analyzeO1_is_threat :
    (analyzeCollisionRisk PerceptionModule.init ⟨0, 0, 0⟩ ⟨0, 0, 0⟩
      obsO1).is_threat = true := by
  refine (is_threat_iff ⟨0, 0, 0⟩ ⟨0, 0, 0⟩ obsO1 (by rw [obsO1_rv_norm]; norm_num)).mpr
    ⟨?_, ?_⟩
  · rw [obsO1_closest]
    norm_num [obsO1, Obstacle.sizeD, Vec3.maxComp]
  · rw [obsO1_tstar]
    norm_num

lemma analyzeO2_is_threat :
    (analyzeCollisionRisk PerceptionModule.init ⟨0, 0, 0⟩ ⟨0, 0, 0⟩
      obsO2).is_threat = false := by
  rcases Bool.eq_false_or_eq_true (analyzeCollisionRisk PerceptionModule.init
    ⟨0, 0, 0⟩ ⟨0, 0, 0⟩ obsO2).is_threat with ht | hf
  · exfalso
    have := ((is_threat_iff ⟨0, 0, 0⟩ ⟨0, 0, 0⟩ obsO2
      (by rw [obsO2_rv_norm]; norm_num)).mp ht).2
    rw [obsO2_tstar] at this
    norm_num at this
  · exact hf

/-- C4: the threat list produced by `_detect_immediate_threats` is sorted
ascending by time-to-collision (for every module configuration and every
input), and in the concrete scenario with obstacle O1 at time-to-collision
1.0 s and obstacle O2 at 3.0 s, the head of the list refers to O1 (O2,
being beyond the 2.0 s lookahead, is not even included, so the head is the
sole O1 record). -/
theorem C4_threat_ordering :
    (∀ (pm : PerceptionModule) (d v : Vec3) (obstacles : List Obstacle),
      List.Pairwise
        (fun a b : Threat => ttcLE a.time_to_collision b.time_to_collision = true)
        (detectImmediateThreats pm d v obstacles)) ∧
    (analyzeCollisionRisk PerceptionModule.init ⟨0, 0, 0⟩ ⟨0, 0, 0⟩
      obsO1).time_to_collision = some 1 ∧
    (analyzeCollisionRisk PerceptionModule.init ⟨0, 0, 0⟩ ⟨0, 0, 0⟩
      obsO2).time_to_collision = some 3 ∧
    (detectImmediateThreats PerceptionModule.init ⟨0, 0, 0⟩ ⟨0, 0, 0⟩
      [obsO1, obsO2]).head? =
      some (analyzeCollisionRisk PerceptionModule.init ⟨0, 0, 0⟩ ⟨0, 0, 0⟩ obsO1) ∧
    (analyzeCollisionRisk PerceptionModule.init ⟨0, 0, 0⟩ ⟨0, 0, 0⟩ obsO1).obstacle =
      obsO1 := by
  refine ⟨?_, analyzeO1_ttc, analyzeO2_ttc, ?_, rfl⟩
  · intro pm d v obstacles
    unfold detectImmediateThreats
    exact List.sorted_mergeSort
      (fun a b c => ttcLE_trans a.time_to_collision b.time_to_collision c.time_to_collision)
      (fun a b => ttcLE_total a.time_to_collision b.time_to_collision) _
  · unfold detectImmediateThreats
    rw [show ([obsO1, obsO2].map
        (analyzeCollisionRisk PerceptionModule.init ⟨0, 0, 0⟩ ⟨0, 0, 0⟩)) =
      [analyzeCollisionRisk PerceptionModule.init ⟨0, 0, 0⟩ ⟨0, 0, 0⟩ obsO1,
       analyzeCollisionRisk PerceptionModule.init ⟨0, 0, 0⟩ ⟨0, 0, 0⟩ obsO2] from rfl]
    rw [List.filter_cons, if_pos (by rw [analyzeO1_is_threat]),
      List.filter_cons, if_neg (by rw [analyzeO2_is_threat]; exact Bool.false_ne_true)]
    rw [List.filter_nil, List.mergeSort_singleton]
    rfl

end SmartDrone
